import Mathlib

/-!
# Verification of the Agentic Execution Core

A shallow embedding, in Lean 4, of the parts of the Hey-work desktop
assistant (a Rust/Tauri application) that its specification makes testable
claims about: the entry router, the browser-snapshot compaction, the
single-agent tool-dispatch turn, the rate governor, the memory store EMA,
the swarm scheduler, and the browser UID discipline.

Each definition is translated from the corresponding Rust item in
`src-tauri/src`; the source file and function are named next to each
definition.  Types that live in repository files not shipped here
(`api.rs`, `computer.rs`) are modelled from the specification and say so
in their doc comments.  Rust machine integers are modelled as `Nat`
(no arithmetic close to overflow occurs in the modelled paths), and the
`f32`/`f64` arithmetic of the rate governor and the memory EMA is modelled
over `ℚ`; the doc comments of `get_limits` and `update_one_memory` justify
why the rational model agrees with the floating-point source on every
input the theorems mention.
-/

namespace HeyWork

/-! ## String primitives modelling Rust `str` operations

All text predicates of the source are byte-oriented Rust `str` methods.
We model text as Lean `String` and implement the Rust operations over the
underlying character list.  `to_lowercase` is modelled for ASCII (the
inputs of every theorem below are ASCII; both sides of each comparison
use the same model, so nothing depends on non-ASCII case folding).
Rust `len()` counts UTF-8 bytes, which `utf8Len` reproduces exactly. -/

/-- ASCII case folding for one character (model of Rust `to_lowercase`). -/
def asciiLowerChar (c : Char) : Char :=
  if 65 ≤ c.toNat ∧ c.toNat ≤ 90 then Char.ofNat (c.toNat + 32) else c

/-- Model of Rust `str::to_lowercase` (ASCII fragment). -/
def asciiLower (s : String) : String := String.mk (s.data.map asciiLowerChar)

/-- Whitespace test used by the model of Rust `str::trim`. -/
def isWsChar (c : Char) : Bool := c = ' ' || c = '\t' || c = '\n' || c = '\r'

/-- Drop leading whitespace characters. -/
def dropLeadingWs : List Char → List Char
  | [] => []
  | c :: cs => if isWsChar c then dropLeadingWs cs else c :: cs

/-- Model of Rust `str::trim`: drop whitespace from both ends. -/
def rustTrim (s : String) : String :=
  String.mk (dropLeadingWs ((dropLeadingWs s.data.reverse).reverse))

/-- Does the character list start with the given pattern? -/
def listStartsWith : List Char → List Char → Bool
  | _, [] => true
  | [], _ :: _ => false
  | c :: cs, p :: ps => c = p && listStartsWith cs ps

/-- Does the character list contain the given pattern as a contiguous run? -/
def listContainsSub : List Char → List Char → Bool
  | [], pat => pat.isEmpty
  | c :: cs, pat => listStartsWith (c :: cs) pat || listContainsSub cs pat

/-- Model of Rust `str::starts_with`. -/
def rsStartsWith (s pat : String) : Bool := listStartsWith s.data pat.data

/-- Model of Rust `str::contains` (substring search). -/
def rsContains (s pat : String) : Bool := listContainsSub s.data pat.data

/-- Model of Rust `str::ends_with`. -/
def rsEndsWith (s pat : String) : Bool := listStartsWith s.data.reverse pat.data.reverse

/-- UTF-8 byte count of one character. -/
def charUtf8Size (c : Char) : Nat :=
  if c.toNat < 128 then 1 else if c.toNat < 2048 then 2
  else if c.toNat < 65536 then 3 else 4

/-- Model of Rust `str::len` (UTF-8 byte length). -/
def utf8Len (s : String) : Nat := (s.data.map charUtf8Size).sum

/-- Number of pieces produced by Rust `str::split(sep)` : one more than the
number of separator occurrences. -/
def splitPieceCount (sep : Char) (s : String) : Nat := s.data.count sep + 1

/-! ## Entry router (`agent.rs`, `is_simple_quick_task` / `is_complex_task`)

Claim C9 is about these two classifiers.  `is_simple_quick_task` is a
direct translation of `agent.rs` lines 1459-1492 (note the source
lowercases and then `trim`s the instruction); `is_complex_task` of lines
1495-1510 (lowercase only, no trim). -/

/-- The `open_patterns` array of `is_simple_quick_task`. -/
def open_patterns : List String := ["open ", "launch ", "start ", "run "]

/-- The `action_patterns` array of `is_simple_quick_task`. -/
def action_patterns : List String := ["click", "type", "press", "scroll"]

/-- Translation of `agent.rs::is_simple_quick_task`. -/
def is_simple_quick_task (instructions : String) : Bool :=
  let lower := rustTrim (asciiLower instructions)
  let is_open_app := open_patterns.any (fun p => rsStartsWith lower p)
  let is_simple_action := action_patterns.any (fun p => rsContains lower p)
  let is_short := decide (utf8Len lower < 50)
  let single_sentence := decide (splitPieceCount '.' lower ≤ 2)
  let is_web_nav := rsContains lower "go to" || rsContains lower "navigate to"
  let is_simple_bash := rsStartsWith lower "ls" || rsStartsWith lower "cd" ||
    rsStartsWith lower "pwd" || rsStartsWith lower "cat" || rsStartsWith lower "echo"
  (is_open_app && is_short && single_sentence) ||
  (is_simple_action && is_short && !(rsContains lower " and ")) ||
  (is_web_nav && is_short) ||
  is_simple_bash

/-- The `swarm_keywords` array of `is_complex_task`. -/
def swarm_keywords : List String :=
  ["use swarm", "use agents", "in parallel", "simultaneously",
   "at the same time", "multiple agents", "agent swarm"]

/-- Translation of `agent.rs::is_complex_task`. -/
def is_complex_task (instructions : String) : Bool :=
  let lower := asciiLower instructions
  swarm_keywords.any (fun kw => rsContains lower kw)

/-- Reference classifier written from the words of claim C9: the
simple-quick predicate that the claim states, as a function of the text it
is evaluated on. -/
def simple_quick_ref (text : String) : Bool :=
  (open_patterns.any (fun p => rsStartsWith text p) &&
     decide (utf8Len text < 50) && decide (splitPieceCount '.' text ≤ 2)) ||
  (action_patterns.any (fun p => rsContains text p) &&
     decide (utf8Len text < 50) && !(rsContains text " and ")) ||
  ((rsContains text "go to" || rsContains text "navigate to") &&
     decide (utf8Len text < 50)) ||
  (rsStartsWith text "ls" || rsStartsWith text "cd" ||
   rsStartsWith text "pwd" || rsStartsWith text "cat" || rsStartsWith text "echo")

/-- Reference complex classifier written from the words of claim C9. -/
def complex_ref (text : String) : Bool :=
  swarm_keywords.any (fun kw => rsContains text kw)

/-! ## Rate Governor (`rate_limiter.rs`)

Claim C3 is about `get_limits` and `update_status`.  The source works in
`f32`; we model it over `ℚ`.  This is exact for every input mentioned
below: the four products `TPM * 0.95f32` evaluate in `f32` to exactly
76000, 15200, 190000 and 38000 (each true product lies within half an ulp
of that integer), which are also the values `⌊TPM * (95/100)⌋` of the
rational model; and for window sums `a : u32` against these limits the
`f32` comparisons `a/limit ≥ 1.0` and `a/limit ≥ 0.95f32` hold exactly
when the corresponding rational comparisons hold (for `a < 2^24` both
quotients are within a quarter ulp of the exact rational, and no integer
falls inside the gap at any of the four limits; for larger `a` both sides
are deep in the Limited region). -/

/-- The tier token-per-minute constants of `rate_limiter.rs`. -/
def BUILD_TIER_INPUT_TPM : Nat := 80000

/-- Build-tier output TPM constant. -/
def BUILD_TIER_OUTPUT_TPM : Nat := 16000

/-- Scale-tier input TPM constant. -/
def SCALE_TIER_INPUT_TPM : Nat := 200000

/-- Scale-tier output TPM constant. -/
def SCALE_TIER_OUTPUT_TPM : Nat := 40000

/-- The `SAFETY_MARGIN` constant (0.95). -/
def SAFETY_MARGIN : ℚ := 95 / 100

/-- The `RateLimitTier` enum. -/
inductive RateLimitTier
  | Build
  | Scale
deriving DecidableEq

/-- The `RateLimitStatus` enum. -/
inductive RateLimitStatus
  | Safe
  | Throttle
  | Limited
deriving DecidableEq

/-- The tier input TPM, as selected by `get_limits`. -/
def tier_input_tpm : RateLimitTier → Nat
  | .Build => BUILD_TIER_INPUT_TPM
  | .Scale => SCALE_TIER_INPUT_TPM

/-- The tier output TPM, as selected by `get_limits`. -/
def tier_output_tpm : RateLimitTier → Nat
  | .Build => BUILD_TIER_OUTPUT_TPM
  | .Scale => SCALE_TIER_OUTPUT_TPM

/-- Translation of `RateLimiter::get_limits`: the tier TPM constants with
the safety margin already applied (`(TPM as f32 * SAFETY_MARGIN) as u32`;
the `as u32` truncation is `Rat.floor` here, and both round-trips land on
the same integers, see the section comment). -/
def get_limits (tier : RateLimitTier) : Nat × Nat :=
  ((⌊(tier_input_tpm tier : ℚ) * SAFETY_MARGIN⌋).toNat,
   (⌊(tier_output_tpm tier : ℚ) * SAFETY_MARGIN⌋).toNat)

/-- Translation of `RateLimiter::update_status`: classify the current
window usage against the limits returned by `get_limits`. -/
def update_status (tier : RateLimitTier) (current_input current_output : Nat) :
    RateLimitStatus :=
  let limit_input := (get_limits tier).1
  let limit_output := (get_limits tier).2
  let inRatio : ℚ := (current_input : ℚ) / (limit_input : ℚ)
  let outRatio : ℚ := (current_output : ℚ) / (limit_output : ℚ)
  if 1 ≤ inRatio ∨ 1 ≤ outRatio then .Limited
  else if SAFETY_MARGIN ≤ inRatio ∨ SAFETY_MARGIN ≤ outRatio then .Throttle
  else .Safe

/-- One entry of the sliding 60-second token window
(`rate_limiter.rs::TokenBucketEntry`); timestamps are seconds. -/
structure TokenBucketEntry where
  timestamp : Nat
  input_tokens : Nat
  output_tokens : Nat
deriving DecidableEq

/-- Translation of `RateLimiter::get_current_usage`: sum the entries whose
timestamp is within the last 60 seconds. -/
def get_current_usage (now : Nat) (history : List TokenBucketEntry) : Nat × Nat :=
  let cutoff := now - 60
  (((history.filter (fun e => decide (cutoff ≤ e.timestamp))).map (·.input_tokens)).sum,
   ((history.filter (fun e => decide (cutoff ≤ e.timestamp))).map (·.output_tokens)).sum)

/-- Translation of `RateLimiter::record_usage`: push the new entry, drop
entries older than 60 seconds from the front, and reclassify the status
from the window sums (the call to `update_status`). -/
def record_usage (tier : RateLimitTier) (now : Nat)
    (history : List TokenBucketEntry) (inTok outTok : Nat) :
    List TokenBucketEntry × RateLimitStatus :=
  let history1 := history ++ [⟨now, inTok, outTok⟩]
  let cutoff := now - 60
  let history2 := history1.dropWhile (fun e => decide (e.timestamp < cutoff))
  let (ci, co) := get_current_usage now history2
  (history2, update_status tier ci co)

/-! ## Memory Store (`cognitive/memory.rs`)

Claim C4 is about `update_memory_success` (lines 389-405).  The source
updates `success_rate : f64` by `rate * (1.0 - alpha) + obs * alpha` with
`alpha = 0.3`.  We model the rate over `ℚ` with `alpha = 3/10`.  For the
concrete scenario of the claim the `f64` source computes exactly the same
decimal values as the rational model: from 1.0, a success gives
`0.7f64 + 0.3f64`, which rounds to exactly 1.0, and a failure then gives
exactly the `f64` nearest 0.7 - i.e. the value every test would write as
`0.7`, which the rational model represents as `7/10`. -/

/-- Memory record (fields relevant to C4) from `cognitive/memory.rs`. -/
structure MemoryRec where
  id : String
  task_pattern : String
  success_rate : ℚ
  usage_count : Nat
deriving DecidableEq

/-- Modify the first element satisfying `p` (model of Rust
`iter_mut().find(..)` followed by a mutation of the found element). -/
def modifyFirst {α : Type} (p : α → Bool) (f : α → α) : List α → List α
  | [] => []
  | x :: xs => if p x then f x :: xs else x :: modifyFirst p f xs

/-- The mutation `update_memory_success` applies to the found memory:
bump the usage count and fold the observation into the success rate with
learning rate `alpha = 0.3`. -/
def update_one_memory (success : Bool) (m : MemoryRec) : MemoryRec :=
  let alpha : ℚ := 3 / 10
  let new_success : ℚ := if success then 1 else 0
  { m with usage_count := m.usage_count + 1,
           success_rate := m.success_rate * (1 - alpha) + new_success * alpha }

/-- Translation of `MemorySystem::update_memory_success`: find the memory
by id (first match) and apply the EMA update; unknown ids are a no-op. -/
def update_memory_success (mems : List MemoryRec) (memory_id : String)
    (success : Bool) : List MemoryRec :=
  modifyFirst (fun m => m.id == memory_id) (update_one_memory success) mems

/-- The concrete memory of claim C4: initial success rate 1.0. -/
def c4_memory : MemoryRec := ⟨"m1", "open app", 1, 0⟩

/-! ## Message model (`api.rs`)

Modelled from the spec: `api.rs` is a repository file that is not under
`src/`, so the `ContentBlock` union is written from §3 of the spec (whose
variant list coincides with the `match` arms over `ContentBlock` in
`agent.rs` lines 689-1120).  `Json` models the `serde_json::Value` payload
of tool-use inputs as far as the dispatcher inspects it (`get`, `as_str`,
`as_bool`). -/

/-- Modelled from the spec: structured tool input (`serde_json::Value`). -/
inductive Json
  | null
  | jbool (b : Bool)
  | jnum (n : Int)
  | jstr (s : String)
  | jarr (elems : List Json)
  | jobj (fields : List (String × Json))

/-- First-match lookup in a JSON object field list. -/
def lookupField : List (String × Json) → String → Option Json
  | [], _ => none
  | (k, v) :: rest, key => if k == key then some v else lookupField rest key

/-- Model of `serde_json::Value::get` (objects only). -/
def Json.getField : Json → String → Option Json
  | .jobj fields, key => lookupField fields key
  | _, _ => none

/-- Model of `serde_json::Value::as_str`. -/
def Json.asStr : Json → Option String
  | .jstr s => some s
  | _ => none

/-- Model of `serde_json::Value::as_bool`. -/
def Json.asBool : Json → Option Bool
  | .jbool b => some b
  | _ => none

/-- Modelled from the spec: the parts of a tool result (text or image). -/
inductive ToolResultContent
  | text (t : String)
  | image (media_type data : String)

/-- Modelled from the spec: the ContentBlock union of §3. -/
inductive ContentBlock
  | text (t : String)
  | thinking (t : String)
  | redactedThinking (data : String)
  | toolUse (id name : String) (input : Json)
  | serverToolUse (id name : String) (input : Json)
  | toolResult (tool_use_id : String) (content : List ToolResultContent)
  | image (media_type data : String)
  | webSearchToolResult
  | webFetchToolResult

/-- Modelled from the spec: a chat message (role and content blocks). -/
structure Message where
  role : String
  content : List ContentBlock

/-! ## Snapshot compaction (`agent.rs`, lines 1514-1571)

Claim C5 is about `summarize_old_snapshots` and `summarize_snapshot`. -/

/-- Split a character list at every occurrence of `sep` (Rust
`str::split`): always at least one piece. -/
def splitOnChar (sep : Char) : List Char → List (List Char)
  | [] => [[]]
  | c :: cs =>
    let r := splitOnChar sep cs
    if c = sep then [] :: r
    else
      match r with
      | h :: t => (c :: h) :: t
      | [] => [[c]]

/-- Strip one trailing carriage return (for newline-terminated pieces). -/
def stripTrailingCr (l : List Char) : List Char :=
  match l.reverse with
  | '\r' :: rest => rest.reverse
  | _ => l

/-- All pieces but the last were newline-terminated: strip one trailing CR
from them; drop the final piece when it is empty. -/
def rustLinesAux : List (List Char) → List (List Char)
  | [] => []
  | [last] => if last.isEmpty then [] else [last]
  | p :: ps => stripTrailingCr p :: rustLinesAux ps

/-- Model of Rust `str::lines`. -/
def rustLines (s : String) : List String :=
  (rustLinesAux (splitOnChar '\n' s.data)).map String.mk

/-- Model of Rust `Vec::join` with separator newline. -/
def joinNl : List String → String
  | [] => ""
  | [s] => s
  | s :: rest => s ++ "\n" ++ joinNl rest

/-- The `interactive_roles` array of `summarize_snapshot` (the root
`WebArea` included). -/
def interactive_roles : List String :=
  ["link", "button", "textbox", "checkbox", "radio", "combobox",
   "searchbox", "slider", "switch", "menuitem", "tab", "heading", "WebArea"]

/-- The per-line keep test of `summarize_snapshot`: the trimmed line
mentions an interactive role. -/
def snapshot_line_keep (line : String) : Bool :=
  let trimmed := rustTrim line
  interactive_roles.any fun role =>
    rsContains trimmed (" " ++ role ++ " ") ||
    rsContains trimmed (" " ++ role ++ " \"") ||
    rsEndsWith trimmed (" " ++ role)

/-- The accumulation loop of `summarize_snapshot`: kept lines, kept count,
total count. -/
def summarize_loop : List String → List String × Nat × Nat
  | [] => ([], 0, 0)
  | line :: rest =>
    let r := summarize_loop rest
    if snapshot_line_keep line then (line :: r.1, r.2.1 + 1, r.2.2 + 1)
    else (r.1, r.2.1, r.2.2 + 1)

/-- The header line prepended by `summarize_snapshot`. -/
def snapshot_header (kept total : Nat) : String :=
  "[snapshot summarized: " ++ Nat.repr kept ++ " interactive elements from " ++
    Nat.repr total ++ " total]\n"

/-- Translation of `agent.rs::summarize_snapshot`. -/
def summarize_snapshot (snapshot : String) : String :=
  let r := summarize_loop (rustLines snapshot)
  snapshot_header r.2.1 r.2.2 ++ joinNl r.1

/-- The replacement condition of `summarize_old_snapshots`: a text payload
that starts with the snapshot marker and exceeds 5000 bytes. -/
def is_big_snapshot (t : String) : Bool :=
  rsStartsWith t "uid=" && decide (5000 < utf8Len t)

/-- Per-text compaction step of `summarize_old_snapshots`. -/
def compact_text (t : String) : String :=
  if is_big_snapshot t then summarize_snapshot t else t

/-- Per-item compaction (only text parts are touched). -/
def compact_item : ToolResultContent → ToolResultContent
  | .text t => .text (compact_text t)
  | x => x

/-- Per-block compaction (only tool results are touched). -/
def compact_block : ContentBlock → ContentBlock
  | .toolResult tid content => .toolResult tid (content.map compact_item)
  | b => b

/-- Translation of `agent.rs::summarize_old_snapshots`: compact every
oversized snapshot payload inside the tool results of user messages. -/
def summarize_old_snapshots (messages : List Message) : List Message :=
  messages.map fun m =>
    if m.role == "user" then { m with content := m.content.map compact_block }
    else m

/-! ## Single-agent turn processing (`agent.rs`, `Agent::run`)

Claims C1 and C2 are about the block-processing loop of one assistant
turn (lines 682-1193).  The actuators are abstracted as an oracle
environment so that the theorems quantify over every actuator behaviour;
the control flow - which branch runs, which branch pushes a tool result,
which branch breaks the loop, which branch propagates an error out of the
run - is translated from the source.  The process-wide `running` flag is
modelled as the sequence of values its successive reads observe:
`running : Nat → Bool`, with the reads numbered in program order (one at
the top of the loop for each block, one more inside the browser branch,
one after the loop; the cancellation poll racing a browser call is the
`cancelled` outcome of the browser oracle). -/

/-- The agent mode (`AgentMode` in `agent.rs`). -/
inductive AgentMode
  | Computer
  | Browser
deriving DecidableEq

/-- Modelled from the spec: `computer.rs` is not under `src/`; the
ComputerAction input carries a required action verb plus optional fields
(coordinate, text, key, region, ...), so `serde_json::from_value` fails
exactly when the input is not an object carrying a string `action`
field.  The optional fields are not modelled; they cannot fail for the
inputs the theorems mention. -/
structure ComputerAction where
  action : String

/-- Parse of the computer tool input (`serde_json::from_value` at
`agent.rs` line 707). -/
def parseComputerAction (j : Json) : Except String ComputerAction :=
  match j.getField "action" with
  | some (Json.jstr a) => Except.ok ⟨a⟩
  | some _ => Except.error "invalid type: expected a string for field action"
  | none => Except.error "missing field action"

/-- Outcome of a computer-tool dispatch: post-action screenshot data, an
action error (formatted into a text result), or an error the source
propagates out of the whole run with the question-mark operator (the
spawn-blocking join error and the screenshot-capture failure paths). -/
inductive ComputerOutcome
  | ok (screenshot : String)
  | errResult (msg : String)
  | fatal (msg : String)

/-- Outcome of a browser-tool dispatch inside the cancellation race of
lines 885-914: text, image, formatted error text, or the 100 ms
cancellation poll winning the race (the select arm producing the
Stopped-by-user error). -/
inductive BrowserOutcome
  | okText (t : String)
  | okImage (data : String)
  | err (msg : String)
  | cancelled

/-- The actuator environment of one turn. -/
structure ToolEnv where
  computer : ComputerAction → ComputerOutcome
  bash_execute : String → String
  browser_connected : Bool
  browser : String → Json → BrowserOutcome
  tts_available : Bool
  tts : String → Except String String
  research : String → String → Except String String
  python : String → Except String String

/-- The `BROWSER_TOOLS` array of `agent.rs`. -/
def BROWSER_TOOLS : List String := ["see_page", "page_action", "browser_navigate"]

/-- Translation of `agent.rs::is_browser_tool`. -/
def is_browser_tool (name : String) : Bool := BROWSER_TOOLS.contains name

/-- The error text of the python tool failure path (the source wraps the
error in this fixed template). -/
def python_error_text (e : String) : String :=
  "❌ Python Error\n\n```\n" ++ e ++
    "\n```\n\n💡 **Quick Fixes:**\n• Install missing libraries: `pip install python-docx reportlab matplotlib pandas openpyxl`\n• Check file paths exist\n• Ensure proper Python syntax\n• Try running in Terminal first to debug"

/-- The unknown-tool error text (the source additionally wraps the tool
name in quote characters). -/
def unknown_tool_text (name : String) : String :=
  "Error: Unknown tool " ++ name ++
    ". Use the available tools: computer, bash, python, speak."

/-- What processing one `ToolUse` block did: `result` is the pushed tool
result if any, `brk` marks the break paths of the block loop (the
stopped-before-browser check and the cancelled race), `fatal` the
question-mark propagation out of the run, `dispatched` the actuator
invocations performed - each tagged with the index of the running-flag
read that guarded it - and `next` the next flag-read index. -/
structure DispatchOut where
  result : Option ContentBlock
  brk : Bool
  fatal : Option String
  dispatched : List (Nat × String)
  next : Nat

/-- Translation of the `ToolUse` arm of the block loop (`agent.rs` lines
704-1097), one branch per recognized tool name in source order.  `k` is
the index of the loop-top flag read that guarded this block; the browser
branch reads the flag once more (index `k + 1`). -/
def dispatch_tool_use (env : ToolEnv) (mode : AgentMode) (running : Nat → Bool)
    (k : Nat) (id name : String) (input : Json) : DispatchOut :=
  if name == "computer" then
    match parseComputerAction input with
    | Except.error _ => ⟨none, false, none, [], k + 1⟩
    | Except.ok action =>
      match env.computer action with
      | ComputerOutcome.ok shot =>
          ⟨some (ContentBlock.toolResult id
             [ToolResultContent.image "image/jpeg" shot]),
           false, none, [(k, "computer")], k + 1⟩
      | ComputerOutcome.errResult e =>
          ⟨some (ContentBlock.toolResult id
             [ToolResultContent.text ("Error: " ++ e)]),
           false, none, [(k, "computer")], k + 1⟩
      | ComputerOutcome.fatal e =>
          ⟨none, false, some e, [(k, "computer")], k + 1⟩
  else if name == "bash" then
    let restart := ((input.getField "restart").bind Json.asBool).getD false
    if restart then
      ⟨some (ContentBlock.toolResult id
         [ToolResultContent.text "Bash session restarted"]),
       false, none, [(k, "bash")], k + 1⟩
    else
      match (input.getField "command").bind Json.asStr with
      | some cmd =>
          ⟨some (ContentBlock.toolResult id
             [ToolResultContent.text (env.bash_execute cmd)]),
           false, none, [(k, "bash")], k + 1⟩
      | none => ⟨none, false, none, [], k + 1⟩
  else if is_browser_tool name && decide (mode = AgentMode.Browser) then
    if running (k + 1) = false then
      ⟨none, true, none, [], k + 2⟩
    else if env.browser_connected then
      match env.browser name input with
      | BrowserOutcome.okText t =>
          ⟨some (ContentBlock.toolResult id [ToolResultContent.text t]),
           false, none, [(k + 1, name)], k + 2⟩
      | BrowserOutcome.okImage d2 =>
          ⟨some (ContentBlock.toolResult id
             [ToolResultContent.image "image/jpeg" d2]),
           false, none, [(k + 1, name)], k + 2⟩
      | BrowserOutcome.err m =>
          ⟨some (ContentBlock.toolResult id [ToolResultContent.text m]),
           false, none, [(k + 1, name)], k + 2⟩
      | BrowserOutcome.cancelled =>
          ⟨none, true, none, [(k + 1, name)], k + 2⟩
    else
      ⟨some (ContentBlock.toolResult id
         [ToolResultContent.text "Browser not connected"]),
       false, none, [], k + 2⟩
  else if name == "speak" then
    match (input.getField "text").bind Json.asStr with
    | some t =>
      if env.tts_available then
        match env.tts t with
        | Except.ok _ =>
            ⟨some (ContentBlock.toolResult id
               [ToolResultContent.text "Speech delivered."]),
             false, none, [(k, "speak")], k + 1⟩
        | Except.error e =>
            ⟨some (ContentBlock.toolResult id
               [ToolResultContent.text ("TTS error: " ++ e)]),
             false, none, [(k, "speak")], k + 1⟩
      else
        ⟨some (ContentBlock.toolResult id
           [ToolResultContent.text "TTS not available - ELEVENLABS_API_KEY not set"]),
         false, none, [], k + 1⟩
    | none => ⟨none, false, none, [], k + 1⟩
  else if name == "deep_research" then
    match (input.getField "query").bind Json.asStr with
    | some q =>
      let depth := ((input.getField "depth").bind Json.asStr).getD "standard"
      match env.research q depth with
      | Except.ok report =>
          ⟨some (ContentBlock.toolResult id [ToolResultContent.text report]),
           false, none, [(k, "deep_research")], k + 1⟩
      | Except.error e =>
          ⟨some (ContentBlock.toolResult id
             [ToolResultContent.text ("Research failed: " ++ e)]),
           false, none, [(k, "deep_research")], k + 1⟩
    | none => ⟨none, false, none, [], k + 1⟩
  else if name == "python" then
    match (input.getField "code").bind Json.asStr with
    | some c =>
      match env.python c with
      | Except.ok out =>
          ⟨some (ContentBlock.toolResult id [ToolResultContent.text out]),
           false, none, [(k, "python")], k + 1⟩
      | Except.error e =>
          ⟨some (ContentBlock.toolResult id
             [ToolResultContent.text (python_error_text e)]),
           false, none, [(k, "python")], k + 1⟩
    | none => ⟨none, false, none, [], k + 1⟩
  else
    ⟨some (ContentBlock.toolResult id
       [ToolResultContent.text (unknown_tool_text name)]),
     false, none, [], k + 1⟩

/-- How the block loop ended. -/
inductive LoopExit
  | completed
  | broke
  | fatal (msg : String)

/-- The state after the block loop: collected tool results, guarded
dispatch records, next flag-read index, and how the loop ended. -/
structure BlocksOut where
  tool_results : List ContentBlock
  dispatched : List (Nat × String)
  k : Nat
  exit : LoopExit

/-- Translation of the `for block in &response_content` loop of
`Agent::run` (lines 682-1121): check the running flag, dispatch tool
uses, skip the other block kinds (their arms only emit UI events). -/
def process_blocks (env : ToolEnv) (mode : AgentMode) (running : Nat → Bool) :
    List ContentBlock → Nat → BlocksOut
  | [], k => ⟨[], [], k, LoopExit.completed⟩
  | b :: rest, k =>
    if running k = false then ⟨[], [], k + 1, LoopExit.broke⟩
    else
      match b with
      | ContentBlock.toolUse id name input =>
        let d := dispatch_tool_use env mode running k id name input
        match d.fatal with
        | some m => ⟨d.result.toList, d.dispatched, d.next, LoopExit.fatal m⟩
        | none =>
          if d.brk then ⟨d.result.toList, d.dispatched, d.next, LoopExit.broke⟩
          else
            let r := process_blocks env mode running rest d.next
            ⟨d.result.toList ++ r.tool_results, d.dispatched ++ r.dispatched,
             r.k, r.exit⟩
      | _ => process_blocks env mode running rest (k + 1)

/-- How the turn ended (`stopped` is the break of lines 1127-1131,
`finished` that of lines 1141-1145, `continued` appends a user turn). -/
inductive TurnEnd
  | stopped
  | finished
  | continued
  | runError (msg : String)

/-- The `has_tool_calls` test of lines 1135-1138. -/
def is_tool_call_block : ContentBlock → Bool
  | ContentBlock.toolUse _ _ _ => true
  | ContentBlock.serverToolUse _ _ _ => true
  | _ => false

/-- The `has_new_snapshot` test of lines 1163-1175. -/
def tool_result_has_new_snapshot : ContentBlock → Bool
  | ContentBlock.toolResult _ content =>
      content.any fun c =>
        match c with
        | ToolResultContent.text t => rsStartsWith t "uid="
        | _ => false
  | _ => false

/-- The fallback text pushed when tools were requested but no result was
captured (lines 1148-1160). -/
def silent_failure_text : String :=
  "Error: Tool execution failed silently. Please try again."

/-- The observable outcome of one assistant turn. -/
structure TurnOut where
  endState : TurnEnd
  messages : List Message
  dispatched : List (Nat × String)

/-- Translation of one iteration of the agent loop after the streaming
call returned `response_content` (lines 658-1193): append the assistant
message, process the blocks, and either stop, finish, or append the
tool-result user turn (compacting old snapshots first when a new
snapshot arrived). -/
def process_assistant_turn (env : ToolEnv) (mode : AgentMode)
    (running : Nat → Bool) (response_content : List ContentBlock)
    (messages : List Message) : TurnOut :=
  let messages0 := messages ++ [⟨"assistant", response_content⟩]
  let r := process_blocks env mode running response_content 0
  match r.exit with
  | LoopExit.fatal m => ⟨TurnEnd.runError m, messages0, r.dispatched⟩
  | _ =>
    if running r.k = false then ⟨TurnEnd.stopped, messages0, r.dispatched⟩
    else if (response_content.any is_tool_call_block) = false then
      ⟨TurnEnd.finished, messages0, r.dispatched⟩
    else if r.tool_results.isEmpty then
      ⟨TurnEnd.continued,
       messages0 ++ [⟨"user", [ContentBlock.text silent_failure_text]⟩],
       r.dispatched⟩
    else
      let msgs1 :=
        if r.tool_results.any tool_result_has_new_snapshot then
          summarize_old_snapshots messages0
        else messages0
      ⟨TurnEnd.continued, msgs1 ++ [⟨"user", r.tool_results⟩], r.dispatched⟩

/-- Number of tool results in a message. -/
def count_tool_results (m : Message) : Nat :=
  m.content.countP fun b =>
    match b with
    | ContentBlock.toolResult _ _ => true
    | _ => false

/-- Number of tool uses in a block list. -/
def count_tool_uses (blocks : List ContentBlock) : Nat :=
  blocks.countP fun b =>
    match b with
    | ContentBlock.toolUse _ _ _ => true
    | _ => false

/-- A concrete benign environment for the C1 evaluation. -/
def env_c1 : ToolEnv :=
  { computer := fun _ => ComputerOutcome.ok "IMGDATA"
    bash_execute := fun _ => "ok"
    browser_connected := true
    browser := fun _ _ => BrowserOutcome.okText "done"
    tts_available := false
    tts := fun _ => Except.ok "AUDIO"
    research := fun _ _ => Except.ok "report"
    python := fun _ => Except.ok "out" }

/-- The C2 environment: the cancellation poll wins the race against the
browser call. -/
def env_c2 : ToolEnv :=
  { env_c1 with browser := fun _ _ => BrowserOutcome.cancelled }

/-- The C2 flag-read trace: the first two reads (loop top, browser
branch) see the flag set, the post-loop read sees it cleared. -/
def running_c2 : Nat → Bool := fun k => decide (k < 2)

/-! ## Swarm scheduler (`cognitive/agent_swarm.rs`)

Claims C6, C7 and C10 are about this module.  The swarm is only ever
constructed by `AgentSwarm::new`, which sets `config: SwarmConfig::default()`
(max_retries 3, auto_retry true) and nothing mutates the configuration,
so the two configuration values are inlined as constants. -/

/-- The `SubTaskStatus` enum. -/
inductive SubTaskStatus
  | Pending
  | Ready
  | Executing
  | Completed
  | Failed
  | Verifying
  | NeedsRetry
  | Blocked
deriving DecidableEq

/-- The `TaskStatus` enum. -/
inductive TaskStatus
  | Pending
  | Planning
  | Executing
  | Verifying
  | Completed
  | Failed
  | NeedsUserInput
  | Paused
deriving DecidableEq

/-- A subtask, restricted to the fields the claims mention
(`agent_swarm.rs::SubTask`). -/
structure SubTask where
  id : String
  description : String
  dependencies : List String
  status : SubTaskStatus
  retry_count : Nat
  max_retries : Nat
deriving DecidableEq

/-- `SwarmConfig::default().max_retries`. -/
def DEFAULT_MAX_RETRIES : Nat := 3

/-- `SwarmConfig::default().auto_retry`. -/
def DEFAULT_AUTO_RETRY : Bool := true

/-- One planner step as consumed by `create_execution_plan`
(`agent_swarm.rs::AnalysisStep`, fields relevant to the claims). -/
structure AnalysisStep where
  description : String
  dependencies : List String

/-- Translation of `AgentSwarm::create_execution_plan`: one subtask per
analysis step, created Ready when its dependency list is empty and
Blocked otherwise.  The source ids are `"{uuid}_step_{idx}"` with a fresh
uuid; the model keeps the per-plan-unique `"step_{idx}"` part. -/
def create_execution_plan (steps : List AnalysisStep) : List SubTask :=
  steps.enum.map fun p =>
    { id := "step_" ++ Nat.repr p.1
      description := p.2.description
      dependencies := p.2.dependencies
      status := if p.2.dependencies.isEmpty then SubTaskStatus.Ready
                else SubTaskStatus.Blocked
      retry_count := 0
      max_retries := DEFAULT_MAX_RETRIES }

/-- The ids of the Completed subtasks (`update_blocked_tasks`, first
loop). -/
def completed_ids (sts : List SubTask) : List String :=
  (sts.filter fun st => st.status == SubTaskStatus.Completed).map (·.id)

/-- The loop body of `update_blocked_tasks`: promote one Blocked subtask
whose dependencies are all among the given Completed ids. -/
def promote_one (completed : List String) (st : SubTask) : SubTask :=
  if st.status == SubTaskStatus.Blocked then
    if st.dependencies.all fun dep => completed.contains dep then
      { st with status := SubTaskStatus.Ready }
    else st
  else st

/-- Translation of `AgentSwarm::update_blocked_tasks`: promote every
Blocked subtask whose dependencies are all among the Completed ids.  The
source computes `completed_ids` once and then mutates in place; since the
mutation only turns Blocked into Ready it cannot change the completed
set, so the map over the pre-state is an exact translation. -/
def update_blocked_tasks (sts : List SubTask) : List SubTask :=
  sts.map (promote_one (completed_ids sts))

/-- Model of `task.subtasks.iter().find(|s| s.id == subtask_id)`. -/
def find_subtask (sts : List SubTask) (sid : String) : Option SubTask :=
  sts.find? fun st => st.id == sid

/-- The `SwarmEvent` enum (payloads flattened to the fields the claims
mention). -/
inductive SwarmEvent
  | TaskStarted (task_id description : String)
  | TaskPlanning (task_id : String)
  | SubTaskStarted (task_id subtask_id : String)
  | SubTaskCompleted (task_id subtask_id : String)
  | VerificationCompleted (task_id subtask_id : String) (passed : Bool)
  | CriticReview (task_id : String)
  | RecoveryAttempt (task_id subtask_id strategy : String)
  | SubTaskFailed (task_id subtask_id error : String)
  | TaskCompleted (task_id : String) (success : Bool)
  | NeedsUserInput (task_id question : String)
deriving DecidableEq

/-- Translation of `AgentSwarm::handle_subtask_error`: retry (Recovery
event, status Ready, retry_count incremented) while
`retry_count < max_retries && auto_retry`, otherwise mark Failed and emit
the failure event. -/
def handle_subtask_error (task_id : String) (sts : List SubTask)
    (subtask_id error : String) : List SubTask × SwarmEvent :=
  let should_retry :=
    match find_subtask sts subtask_id with
    | some st => decide (st.retry_count < st.max_retries) && DEFAULT_AUTO_RETRY
    | none => false
  if should_retry then
    (modifyFirst (fun st => st.id == subtask_id)
       (fun st => { st with retry_count := st.retry_count + 1, status := SubTaskStatus.Ready })
       sts,
     SwarmEvent.RecoveryAttempt task_id subtask_id "Retry with modified approach")
  else
    (modifyFirst (fun st => st.id == subtask_id)
       (fun st => { st with status := SubTaskStatus.Failed }) sts,
     SwarmEvent.SubTaskFailed task_id subtask_id error)

/-- The atomic state updates of the execute phase, as a step relation on
the subtask list.  Each constructor is one `tasks.write()` block of
`agent_swarm.rs`: the Blocked-to-Ready promotion (`update_blocked_tasks`),
the Executing mark of `execute_subtask` (only subtasks collected as
Ready are dispatched), the Completed mark of its success path, and
`handle_subtask_error` for the failure and timeout paths (invoked only
for a subtask that was marked Executing). -/
inductive SwarmStep : List SubTask → List SubTask → Prop
  | promote (sts : List SubTask) : SwarmStep sts (update_blocked_tasks sts)
  | start (sts : List SubTask) (sid : String) (st : SubTask)
      (hfind : find_subtask sts sid = some st)
      (hst : st.status = SubTaskStatus.Ready) :
      SwarmStep sts
        (modifyFirst (fun s => s.id == sid)
          (fun s => { s with status := SubTaskStatus.Executing }) sts)
  | complete (sts : List SubTask) (sid : String) (st : SubTask)
      (hfind : find_subtask sts sid = some st)
      (hst : st.status = SubTaskStatus.Executing) :
      SwarmStep sts
        (modifyFirst (fun s => s.id == sid)
          (fun s => { s with status := SubTaskStatus.Completed }) sts)
  | fail (sts : List SubTask) (sid tid err : String) (st : SubTask)
      (hfind : find_subtask sts sid = some st)
      (hst : st.status = SubTaskStatus.Executing) :
      SwarmStep sts (handle_subtask_error tid sts sid err).1

/-- Reachability of a scheduler state from the freshly planned task. -/
def SwarmReachable (init s : List SubTask) : Prop :=
  Relation.ReflTransGen SwarmStep init s

/-- A dependency id counts as met when some Completed subtask carries it
(`completed_ids.contains(dep)`). -/
def dep_completed (sts : List SubTask) (dep : String) : Prop :=
  ∃ st ∈ sts, st.id = dep ∧ st.status = SubTaskStatus.Completed

/-- The readiness invariant of claim C6: Ready or Executing subtasks have
all dependencies Completed. -/
def ready_invariant (sts : List SubTask) : Prop :=
  ∀ st ∈ sts,
    (st.status = SubTaskStatus.Ready ∨ st.status = SubTaskStatus.Executing) →
    ∀ dep ∈ st.dependencies, dep_completed sts dep

/-- The initial subtask of the C7 retry trace: Ready, no retries yet. -/
def c7_subtask (sid d : String) (M : Nat) : SubTask :=
  ⟨sid, d, [], SubTaskStatus.Ready, 0, M⟩

/-- Iterated failure handling: the state after the subtask execution has
failed (or timed out) `k` times in a row, each failure handled by
`handle_subtask_error` (the subtask is re-dispatched in between, which
does not touch retry_count). -/
def fail_repeatedly (task_id subtask_id error : String) :
    Nat → List SubTask → List SubTask
  | 0, sts => sts
  | k + 1, sts =>
    fail_repeatedly task_id subtask_id error k
      (handle_subtask_error task_id sts subtask_id error).1

/-- The events emitted by the iterated failure handling, in order. -/
def fail_events (task_id subtask_id error : String) :
    Nat → List SubTask → List SwarmEvent
  | 0, _ => []
  | k + 1, sts =>
    (handle_subtask_error task_id sts subtask_id error).2 ::
      fail_events task_id subtask_id error k
        (handle_subtask_error task_id sts subtask_id error).1

/-- Translation of the completion mark of `AgentSwarm::process_task`
(lines 342-354): Completed when every subtask is Completed, otherwise
Failed. -/
def finalize_task_status (subtasks : List SubTask) : TaskStatus :=
  if subtasks.all fun st => st.status == SubTaskStatus.Completed then
    TaskStatus.Completed
  else TaskStatus.Failed

/-- The events `plan_task` can send: only `TaskPlanning`
(`agent_swarm.rs` line 364). -/
inductive PlanPhaseEvent
  | planning (task_id : String)

/-- The events the execute phase can send: `SubTaskStarted`,
`SubTaskCompleted`, `VerificationCompleted`, `RecoveryAttempt` and
`SubTaskFailed` (the `event_tx.send` calls of `execute_subtask`,
`verify_subtask` and `handle_subtask_error`). -/
inductive ExecPhaseEvent
  | started (task_id subtask_id : String)
  | completed (task_id subtask_id : String)
  | verification (task_id subtask_id : String) (passed : Bool)
  | recovery (task_id subtask_id strategy : String)
  | failed (task_id subtask_id error : String)

/-- The events `critic_review` can send: only `CriticReview`. -/
inductive CriticPhaseEvent
  | review (task_id : String)

/-- Injection of planning-phase events into the event union. -/
def planEventToSwarm : PlanPhaseEvent → SwarmEvent
  | .planning tid => SwarmEvent.TaskPlanning tid

/-- Injection of execute-phase events into the event union. -/
def execEventToSwarm : ExecPhaseEvent → SwarmEvent
  | .started t s => SwarmEvent.SubTaskStarted t s
  | .completed t s => SwarmEvent.SubTaskCompleted t s
  | .verification t s p => SwarmEvent.VerificationCompleted t s p
  | .recovery t s g => SwarmEvent.RecoveryAttempt t s g
  | .failed t s e => SwarmEvent.SubTaskFailed t s e

/-- Injection of critic-phase events into the event union. -/
def criticEventToSwarm : CriticPhaseEvent → SwarmEvent
  | .review t => SwarmEvent.CriticReview t

/-- The full event emission of `AgentSwarm::process_task`: whatever the
three phases emitted, followed by the unconditional
`TaskCompleted { success: true }` of lines 356-359. -/
def process_task_events (plan : List PlanPhaseEvent) (exec : List ExecPhaseEvent)
    (critic : List CriticPhaseEvent) (task_id : String) : List SwarmEvent :=
  plan.map planEventToSwarm ++ exec.map execEventToSwarm ++
    critic.map criticEventToSwarm ++ [SwarmEvent.TaskCompleted task_id true]

/-- Recognizer for `TaskCompleted` events. -/
def is_task_completed_event : SwarmEvent → Bool
  | .TaskCompleted _ _ => true
  | _ => false

/-! ## Browser UID discipline (`browser.rs`)

Claim C8 is about `get_backend_node_id`, `take_snapshot` and the
element operations.  Geometry and devtools payloads are oracle values;
each operation returns the ordered list of devtools commands it issued
together with its result, so the theorems can state that a stale-UID
rejection happens before any page interaction. -/

/-- The UID-relevant state of `BrowserClient`: current snapshot counter
and the uid-to-backend-node map (modelled as an association list). -/
structure BrowserClientState where
  snapshot_id : Nat
  uid_to_backend_node : List (String × Nat)

/-- Digit-string accumulation for the u64 parse. -/
def digitsToNatAux : List Char → Nat → Option Nat
  | [], acc => some acc
  | c :: cs, acc =>
    if '0' ≤ c ∧ c ≤ '9' then digitsToNatAux cs (acc * 10 + (c.toNat - 48))
    else none

/-- Model of Rust `str::parse::<u64>` : an optional plus sign followed by
at least one digit (overflow is not modelled; snapshot counters are
small). -/
def parseU64 (s : String) : Option Nat :=
  match s.data with
  | [] => none
  | '+' :: rest => if rest.isEmpty then none else digitsToNatAux rest 0
  | l => digitsToNatAux l 0

/-- First-match lookup in the uid map (model of `HashMap::get`; the
inserted keys are distinct). -/
def lookupNode : List (String × Nat) → String → Option Nat
  | [], _ => none
  | (k, v) :: rest, key => if k == key then some v else lookupNode rest key

/-- The stale-uid error text of `get_backend_node_id`. -/
def stale_uid_error (snap cur : Nat) : String :=
  "stale uid from snapshot " ++ Nat.repr snap ++ ", current is " ++
    Nat.repr cur ++ ". take a new snapshot first."

/-- Translation of `BrowserClient::get_backend_node_id` (lines 803-826):
split the uid at underscores, require exactly two parts, parse the
snapshot part, reject when it differs from the current snapshot id, then
look the uid up in the map. -/
def get_backend_node_id (st : BrowserClientState) (uid : String) :
    Except String Nat :=
  match (splitOnChar '_' uid.data).map String.mk with
  | [p0, _p1] =>
    match parseU64 p0 with
    | none => Except.error "invalid snapshot id in uid"
    | some snap =>
      if snap ≠ st.snapshot_id then
        Except.error (stale_uid_error snap st.snapshot_id)
      else
        match lookupNode st.uid_to_backend_node uid with
        | some nid => Except.ok nid
        | none => Except.error ("uid not found: " ++ uid)
  | _ => Except.error ("invalid uid format: " ++ uid)

/-- The snapshot-id prefix of a uid, when it has the two-part shape. -/
def uid_snapshot_part (uid : String) : Option Nat :=
  match (splitOnChar '_' uid.data).map String.mk with
  | [p0, _p1] => parseU64 p0
  | _ => none

/-- The devtools commands an element operation can issue, in order.
`getBoxModel` and `resolveNode` are read-only queries; the rest interact
with the page. -/
inductive PageCmd
  | getBoxModel (backend_node_id : Nat)
  | resolveNode (backend_node_id : Nat)
  | mouseMove (x y : Int)
  | mousePress (x y : Int) (click_count : Nat)
  | mouseRelease (x y : Int) (click_count : Nat)
  | keyDown (key : String) (modifiers : Nat)
  | keyUp (key : String)
  | charKey (text : String)
  | evaluateJs (object_id file_path : String)
deriving DecidableEq

/-- Does the command interact with the page (input events, script
evaluation) rather than only query it? -/
def is_interaction_cmd : PageCmd → Bool
  | .getBoxModel _ => false
  | .resolveNode _ => false
  | _ => true

/-- Oracle for the devtools responses the operations consume:
`box_center` is the element center computed by `resolve_uid_to_point`
from the GetBoxModel quad, `resolve_object` the object id of
ResolveNode (its error case covers both the protocol error and the
could-not-resolve-element check). -/
structure BrowserEnv where
  box_center : Nat → Except String (Int × Int)
  resolve_object : Nat → Except String String

/-- Translation of `BrowserClient::resolve_uid_to_point`: resolve the
uid first (no command issued on failure), then query the box model. -/
def resolve_uid_to_point (env : BrowserEnv) (st : BrowserClientState)
    (uid : String) : List PageCmd × Except String (Int × Int) :=
  match get_backend_node_id st uid with
  | Except.error e => ([], Except.error e)
  | Except.ok nid => ([PageCmd.getBoxModel nid], env.box_center nid)

/-- Translation of `BrowserClient::click` (double click selected by
`click_count`). -/
def click (env : BrowserEnv) (st : BrowserClientState) (uid : String)
    (dbl_click : Bool) : List PageCmd × Except String String :=
  match resolve_uid_to_point env st uid with
  | (cmds, Except.error e) => (cmds, Except.error e)
  | (cmds, Except.ok (x, y)) =>
    let cc := if dbl_click then 2 else 1
    (cmds ++ [PageCmd.mouseMove x y, PageCmd.mousePress x y cc,
              PageCmd.mouseRelease x y cc],
     Except.ok ("Successfully " ++
       (if dbl_click then "double clicked" else "clicked") ++ " on element"))

/-- Translation of `BrowserClient::hover`. -/
def hover (env : BrowserEnv) (st : BrowserClientState) (uid : String) :
    List PageCmd × Except String String :=
  match resolve_uid_to_point env st uid with
  | (cmds, Except.error e) => (cmds, Except.error e)
  | (cmds, Except.ok (x, y)) =>
    (cmds ++ [PageCmd.mouseMove x y], Except.ok "Successfully hovered over element")

/-- Translation of `BrowserClient::fill`: click to focus, clear with
ctrl-a, type each character. -/
def fill (env : BrowserEnv) (st : BrowserClientState) (uid value : String) :
    List PageCmd × Except String String :=
  match click env st uid false with
  | (cmds, Except.error e) => (cmds, Except.error e)
  | (cmds, Except.ok _) =>
    (cmds ++ [PageCmd.keyDown "a" 2, PageCmd.keyUp "a"] ++
       value.data.map (fun c => PageCmd.charKey (String.mk [c])),
     Except.ok "Successfully filled element")

/-- Translation of `BrowserClient::drag`: resolve both uids, then press,
move, release. -/
def drag (env : BrowserEnv) (st : BrowserClientState)
    (from_uid to_uid : String) : List PageCmd × Except String String :=
  match resolve_uid_to_point env st from_uid with
  | (cmds1, Except.error e) => (cmds1, Except.error e)
  | (cmds1, Except.ok (fx, fy)) =>
    match resolve_uid_to_point env st to_uid with
    | (cmds2, Except.error e) => (cmds1 ++ cmds2, Except.error e)
    | (cmds2, Except.ok (tx, ty)) =>
      (cmds1 ++ cmds2 ++ [PageCmd.mousePress fx fy 1, PageCmd.mouseMove tx ty,
         PageCmd.mouseRelease tx ty 1],
       Except.ok "Successfully dragged element")

/-- Translation of `BrowserClient::upload_file`: resolve the uid, resolve
the node to a remote object, then set the files by script. -/
def upload_file (env : BrowserEnv) (st : BrowserClientState)
    (uid file_path : String) : List PageCmd × Except String String :=
  match get_backend_node_id st uid with
  | Except.error e => ([], Except.error e)
  | Except.ok nid =>
    match env.resolve_object nid with
    | Except.error e => ([PageCmd.resolveNode nid], Except.error e)
    | Except.ok object_id =>
      ([PageCmd.resolveNode nid, PageCmd.evaluateJs object_id file_path],
       Except.ok ("File uploaded: " ++ file_path))

/-- The uid format of `format_ax_tree` (line 1417). -/
def mk_uid (snapshot_id node_index : Nat) : String :=
  Nat.repr snapshot_id ++ "_" ++ Nat.repr node_index

/-- Translation of the state effect of `BrowserClient::take_snapshot`
(lines 148-153): increment the snapshot counter, clear the uid map, and
repopulate it via `format_ax_tree`, whose inserted keys all carry the new
snapshot id; the (node index, backend node id) pairs harvested from the
accessibility tree are the parameter. -/
def take_snapshot (st : BrowserClientState) (entries : List (Nat × Nat)) :
    BrowserClientState :=
  { snapshot_id := st.snapshot_id + 1,
    uid_to_backend_node :=
      entries.map fun e => (mk_uid (st.snapshot_id + 1) e.1, e.2) }

/-- A concrete browser state for the C8 witness: snapshot 2 active, one
mapped uid. -/
def browser_state_w : BrowserClientState := ⟨2, [("2_0", 7)]⟩

/-- A concrete devtools oracle for the C8 witness. -/
def browser_env_w : BrowserEnv :=
  { box_center := fun _ => Except.ok (10, 20)
    resolve_object := fun _ => Except.ok "obj1" }

end HeyWork

namespace HeyWork

/-- C9 counterexample: the claim states that the classification equals the
reference definition on the lowercased text, but the source trims the
lowercased instruction before classifying.  On the instruction with a
leading space the code classifies simple-quick while the reference
predicate on the (untrimmed) lowercased text does not. -/
theorem entry_router_ref_mismatch_on_untrimmed :
    is_simple_quick_task " open x" = true ∧
    simple_quick_ref (asciiLower " open x") = false := by
  constructor <;> decide

/-- C9 amended: the Entry Router classification equals the reference
definitions when the simple-quick reference is evaluated on the
lowercased and whitespace-trimmed instruction (the complex reference on
the lowercased instruction, as the claim already states). -/
theorem entry_router_matches_trimmed_reference (s : String) :
    is_simple_quick_task s = simple_quick_ref (rustTrim (asciiLower s)) ∧
    is_complex_task s = complex_ref (asciiLower s) :=
  ⟨rfl, rfl⟩

/-- One-sided ratio comparison against 1, cleared of the division. -/
theorem ratio_ge_one_iff (L : Nat) (hL : 0 < L) (a : Nat) :
    (1 ≤ (a : ℚ) / (L : ℚ)) ↔ L ≤ a := by
  rw [one_le_div (by exact_mod_cast hL)]
  exact_mod_cast Iff.rfl

/-- One-sided ratio comparison against the 0.95 safety margin, cleared of
the division. -/
theorem ratio_ge_margin_iff (L : Nat) (hL : 0 < L) (a : Nat) :
    (SAFETY_MARGIN ≤ (a : ℚ) / (L : ℚ)) ↔ 19 * L ≤ 20 * a := by
  rw [SAFETY_MARGIN, div_le_div_iff₀ (by norm_num) (by exact_mod_cast hL)]
  have h95 : ((95 : ℚ) * L ≤ a * 100) ↔ 95 * L ≤ a * 100 := by
    exact_mod_cast Iff.rfl
  rw [h95]
  omega

/-- Classification of `update_status` at known limit values. -/
theorem update_status_spec (tier : RateLimitTier) (i o Li Lo : Nat)
    (h : get_limits tier = (Li, Lo)) (hi : 0 < Li) (ho : 0 < Lo) :
    (update_status tier i o = RateLimitStatus.Limited ↔ (Li ≤ i ∨ Lo ≤ o)) ∧
    (update_status tier i o = RateLimitStatus.Throttle ↔
      (¬ (Li ≤ i ∨ Lo ≤ o) ∧ (19 * Li ≤ 20 * i ∨ 19 * Lo ≤ 20 * o))) := by
  simp only [update_status, h]
  simp only [ratio_ge_one_iff Li hi, ratio_ge_one_iff Lo ho,
    ratio_ge_margin_iff Li hi, ratio_ge_margin_iff Lo ho]
  split_ifs with h1 h2 <;> simp_all

/-- The Build-tier limits returned by `get_limits`. -/
theorem get_limits_build : get_limits RateLimitTier.Build = (76000, 15200) := by
  simp only [get_limits, tier_input_tpm, tier_output_tpm, SAFETY_MARGIN,
    BUILD_TIER_INPUT_TPM, BUILD_TIER_OUTPUT_TPM, Prod.mk.injEq]
  norm_num
  decide

/-- The Scale-tier limits returned by `get_limits`. -/
theorem get_limits_scale : get_limits RateLimitTier.Scale = (190000, 38000) := by
  simp only [get_limits, tier_input_tpm, tier_output_tpm, SAFETY_MARGIN,
    SCALE_TIER_INPUT_TPM, SCALE_TIER_OUTPUT_TPM, Prod.mk.injEq]
  norm_num
  decide

/-- C3 counterexample: recording a window usage of 76000 input tokens on
the Build tier - exactly 95 percent of the 80000 tier input TPM, and
strictly below 100 percent of it - classifies as Limited, not Throttle,
because `get_limits` already carries the 0.95 safety margin and
`update_status` applies the margin again. -/
theorem rate_status_limited_at_95_percent_of_tier_tpm :
    (record_usage .Build 100 [] 76000 0).2 = RateLimitStatus.Limited ∧
    76000 * 100 = 95 * BUILD_TIER_INPUT_TPM ∧
    76000 < BUILD_TIER_INPUT_TPM := by
  refine ⟨?_, by decide, by decide⟩
  have hred : (record_usage .Build 100 [] 76000 0).2 =
      update_status RateLimitTier.Build 76000 0 := by
    simp [record_usage, get_current_usage, List.dropWhile, List.filter]
  rw [hred]
  exact (update_status_spec RateLimitTier.Build 76000 0 76000 15200
    get_limits_build (by norm_num) (by norm_num)).1.mpr (Or.inl le_rfl)

/-- C3 amended: the status is classified against the margin-reduced limit
returned by `get_limits` (95 percent of the tier TPM): Limited exactly
when the window usage reaches that reduced limit (100 percent of it, i.e.
95 percent of the tier TPM), and Throttle exactly when it is below that
but reaches 95 percent of the reduced limit (90.25 percent of the tier
TPM), for either the input or the output side. -/
theorem rate_status_thresholds_vs_reduced_limit (tier : RateLimitTier)
    (i o : Nat) :
    (100 * (get_limits tier).1 = 95 * tier_input_tpm tier ∧
     100 * (get_limits tier).2 = 95 * tier_output_tpm tier) ∧
    (update_status tier i o = RateLimitStatus.Limited ↔
      ((get_limits tier).1 ≤ i ∨ (get_limits tier).2 ≤ o)) ∧
    (update_status tier i o = RateLimitStatus.Throttle ↔
      (¬ ((get_limits tier).1 ≤ i ∨ (get_limits tier).2 ≤ o) ∧
       (19 * (get_limits tier).1 ≤ 20 * i ∨ 19 * (get_limits tier).2 ≤ 20 * o))) := by
  cases tier
  case Build =>
    have hs := update_status_spec RateLimitTier.Build i o 76000 15200
      get_limits_build (by norm_num) (by norm_num)
    rw [get_limits_build]
    exact ⟨⟨by decide, by decide⟩, hs.1, hs.2⟩
  case Scale =>
    have hs := update_status_spec RateLimitTier.Scale i o 190000 38000
      get_limits_scale (by norm_num) (by norm_num)
    rw [get_limits_scale]
    exact ⟨⟨by decide, by decide⟩, hs.1, hs.2⟩

/-- C4 counterexample: for a memory with initial success rate 1.0,
recording a success and then a failure leaves the rate at 0.7, not at the
0.49 the claim computes (0.49 is the rate after two failures). -/
theorem memory_ema_success_then_failure_is_not_0_49 :
    ((update_memory_success (update_memory_success [c4_memory] "m1" true)
        "m1" false).map (fun m => m.success_rate)) = [7 / 10] ∧
    (7 : ℚ) / 10 ≠ 49 / 100 := by
  constructor
  · norm_num [update_memory_success, modifyFirst, update_one_memory, c4_memory]
  · norm_num

/-- C4 amended: `update_memory_success` updates the found memory by the
exponential moving average with alpha 0.3 (new rate = old rate times 0.7
plus observation times 0.3, usage count bumped), and for a memory with
initial success rate 1.0, recording a success and then a failure yields a
resulting rate of 0.7. -/
theorem memory_ema_update_formula :
    (∀ (m : MemoryRec) (s : Bool),
      (update_one_memory s m).success_rate
          = m.success_rate * (7 / 10) + (if s then (1 : ℚ) else 0) * (3 / 10) ∧
      (update_one_memory s m).usage_count = m.usage_count + 1) ∧
    (update_memory_success [c4_memory] "m1" true
        = [⟨"m1", "open app", 1, 1⟩] ∧
     update_memory_success (update_memory_success [c4_memory] "m1" true)
        "m1" false = [⟨"m1", "open app", 7 / 10, 2⟩]) := by
  refine ⟨fun m s => ⟨?_, rfl⟩, ?_, ?_⟩
  · show m.success_rate * (1 - 3 / 10) + (if s then (1 : ℚ) else 0) * (3 / 10)
        = m.success_rate * (7 / 10) + (if s then (1 : ℚ) else 0) * (3 / 10)
    norm_num
  · norm_num [update_memory_success, modifyFirst, update_one_memory, c4_memory]
  · norm_num [update_memory_success, modifyFirst, update_one_memory, c4_memory]

/-- The kept lines and the two counters computed by `summarize_loop` are
the filtered lines, the filtered length, and the total length. -/
theorem summarize_loop_eq (ls : List String) :
    summarize_loop ls
      = (ls.filter snapshot_line_keep, (ls.filter snapshot_line_keep).length,
         ls.length) := by
  induction ls with
  | nil => rfl
  | cons line rest ih =>
    by_cases h : snapshot_line_keep line = true
    · simp [summarize_loop, ih, h, List.filter]
    · simp only [Bool.not_eq_true] at h
      simp [summarize_loop, ih, h, List.filter]

/-- A compacted snapshot never starts with the snapshot marker : its first
character is the opening bracket of the header. -/
theorem summarize_snapshot_not_uid (s : String) :
    rsStartsWith (summarize_snapshot s) "uid=" = false := by
  show listStartsWith (summarize_snapshot s).data _ = false
  have hdata : (summarize_snapshot s).data
      = '[' :: ("snapshot summarized: ".data ++
          (Nat.repr (summarize_loop (rustLines s)).2.1).data ++
          (" interactive elements from ".data ++
            ((Nat.repr (summarize_loop (rustLines s)).2.2).data ++
              (" total]\n".data ++ (joinNl (summarize_loop (rustLines s)).1).data)))) := by
    simp [summarize_snapshot, snapshot_header, String.data_append]
  rw [hdata]
  rfl

/-- Per-text idempotence of the compaction step. -/
theorem compact_text_idem (t : String) :
    compact_text (compact_text t) = compact_text t := by
  by_cases h : is_big_snapshot t = true
  · have h2 : is_big_snapshot (summarize_snapshot t) = false := by
      simp [is_big_snapshot, summarize_snapshot_not_uid]
    simp [compact_text, h, h2]
  · simp only [Bool.not_eq_true] at h
    simp [compact_text, h]

/-- Per-item idempotence. -/
theorem compact_item_idem (x : ToolResultContent) :
    compact_item (compact_item x) = compact_item x := by
  cases x with
  | text t => simp [compact_item, compact_text_idem]
  | image m d => rfl

/-- Per-block idempotence. -/
theorem compact_block_idem (b : ContentBlock) :
    compact_block (compact_block b) = compact_block b := by
  cases b <;> simp [compact_block, List.map_map, Function.comp_def, compact_item_idem]

/-- C5: snapshot compaction is idempotent - applying
`summarize_old_snapshots` twice to any message list equals applying it
once - and the header of a compacted snapshot reports exactly the number
of kept interactive lines out of the total number of lines of the
original snapshot. -/
theorem snapshot_compaction_idempotent_and_header_counts :
    (∀ messages : List Message,
        summarize_old_snapshots (summarize_old_snapshots messages)
          = summarize_old_snapshots messages) ∧
    (∀ s : String,
        summarize_snapshot s
          = snapshot_header ((rustLines s).filter snapshot_line_keep).length
              (rustLines s).length
            ++ joinNl ((rustLines s).filter snapshot_line_keep)) := by
  constructor
  · intro messages
    simp only [summarize_old_snapshots, List.map_map]
    apply List.map_congr_left
    intro m _
    by_cases h : m.role == "user"
    · simp only [Function.comp_def, h, if_pos rfl]
      simp [h, List.map_map, Function.comp_def, compact_block_idem]
    · simp only [Function.comp_def]
      simp [h]
  · intro s
    simp [summarize_snapshot, summarize_loop_eq]

/-- Membership in `modifyFirst`: every element of the result is an
original element or the image of the first match. -/
theorem mem_modifyFirst {α : Type} (p : α → Bool) (f : α → α) (l : List α)
    (x : α) (hx : x ∈ modifyFirst p f l) :
    x ∈ l ∨ ∃ y, l.find? p = some y ∧ x = f y := by
  induction l with
  | nil => simp [modifyFirst] at hx
  | cons a as ih =>
    by_cases hp : p a = true
    · rw [show modifyFirst p f (a :: as) = f a :: as by simp [modifyFirst, hp]] at hx
      rcases List.mem_cons.mp hx with h | h
      · exact Or.inr ⟨a, List.find?_cons_of_pos _ hp, h⟩
      · exact Or.inl (List.mem_cons_of_mem _ h)
    · rw [show modifyFirst p f (a :: as) = a :: modifyFirst p f as by
        simp [modifyFirst, hp]] at hx
      rcases List.mem_cons.mp hx with h | h
      · exact Or.inl (h ▸ List.mem_cons_self a as)
      · rcases ih h with h2 | ⟨y, hy, hxy⟩
        · exact Or.inl (List.mem_cons_of_mem _ h2)
        · exact Or.inr ⟨y, by rw [List.find?_cons_of_neg _ hp]; exact hy, hxy⟩

/-- `dep_completed` survives a `modifyFirst` whose target (the first
match) is not Completed. -/
theorem dep_completed_modifyFirst (p : SubTask → Bool) (f : SubTask → SubTask)
    (l : List SubTask) (y : SubTask) (d : String)
    (hy : ¬ y.status = SubTaskStatus.Completed) :
    l.find? p = some y → dep_completed l d →
    dep_completed (modifyFirst p f l) d := by
  induction l with
  | nil => intro hfind _; simp at hfind
  | cons a as ih =>
    intro hfind h
    obtain ⟨w, hw, hwid, hwst⟩ := h
    by_cases hp : p a = true
    · rw [List.find?_cons_of_pos _ hp] at hfind
      injection hfind with hay
      have hmf : modifyFirst p f (a :: as) = f a :: as := by
        simp [modifyFirst, hp]
      rcases List.mem_cons.mp hw with hwa | hwas
      · rw [hwa, hay] at hwst
        exact absurd hwst hy
      · refine ⟨w, ?_, hwid, hwst⟩
        rw [hmf]
        exact List.mem_cons_of_mem _ hwas
    · rw [List.find?_cons_of_neg _ hp] at hfind
      have hmf : modifyFirst p f (a :: as) = a :: modifyFirst p f as := by
        simp [modifyFirst, hp]
      rcases List.mem_cons.mp hw with hwa | hwas
      · refine ⟨w, ?_, hwid, hwst⟩
        rw [hmf]
        exact List.mem_cons.mpr (Or.inl hwa)
      · obtain ⟨z, hz, hzid, hzst⟩ := ih hfind ⟨w, hwas, hwid, hwst⟩
        refine ⟨z, ?_, hzid, hzst⟩
        rw [hmf]
        exact List.mem_cons_of_mem _ hz

/-- `dep_completed` survives `update_blocked_tasks` (Completed subtasks
are left untouched by `promote_one`). -/
theorem dep_completed_update_blocked (l : List SubTask) (d : String)
    (h : dep_completed l d) : dep_completed (update_blocked_tasks l) d := by
  obtain ⟨w, hw, hwid, hwst⟩ := h
  have hgw : promote_one (completed_ids l) w = w := by
    simp [promote_one, hwst]
  refine ⟨w, ?_, hwid, hwst⟩
  rw [update_blocked_tasks]
  have := List.mem_map_of_mem (promote_one (completed_ids l)) hw
  rwa [hgw] at this

/-- A dependency listed in `completed_ids` is carried by a Completed
subtask. -/
theorem contains_completed_ids (l : List SubTask) (d : String)
    (h : (completed_ids l).contains d = true) : dep_completed l d := by
  have hmem : d ∈ completed_ids l := by
    simpa using h
  simp only [completed_ids, List.mem_map, List.mem_filter] at hmem
  obtain ⟨st, ⟨hst, hcomp⟩, hid⟩ := hmem
  exact ⟨st, hst, hid, by simpa using hcomp⟩

/-- The freshly planned task satisfies the readiness invariant: a subtask
is created Ready only when its dependency list is empty. -/
theorem create_plan_invariant (steps : List AnalysisStep) :
    ready_invariant (create_execution_plan steps) := by
  intro st hmem hstat dep hdep
  simp only [create_execution_plan, List.mem_map] at hmem
  obtain ⟨p, _, rfl⟩ := hmem
  by_cases hd : p.2.dependencies.isEmpty = true
  · rw [List.isEmpty_iff] at hd
    simp only [hd] at hdep
    exact absurd hdep (List.not_mem_nil dep)
  · simp only [if_neg hd] at hstat
    rcases hstat with h | h <;> exact absurd h (by simp)

/-- Every swarm scheduler step preserves the readiness invariant. -/
theorem swarm_step_preserves {sts sts' : List SubTask}
    (hstep : SwarmStep sts sts') (hinv : ready_invariant sts) :
    ready_invariant sts' := by
  cases hstep with
  | promote =>
    intro x hx hxstat dep hdep
    rw [update_blocked_tasks] at hx
    obtain ⟨w, hw, rfl⟩ := List.mem_map.mp hx
    by_cases hb : (w.status == SubTaskStatus.Blocked) = true
    · by_cases hall :
          (w.dependencies.all fun d => (completed_ids sts).contains d) = true
      · have hx1 : promote_one (completed_ids sts) w
            = { w with status := SubTaskStatus.Ready } := by
          simp only [promote_one, if_pos hb, if_pos hall]
        rw [hx1] at hdep
        exact dep_completed_update_blocked sts dep
          (contains_completed_ids sts dep (List.all_eq_true.mp hall dep hdep))
      · have hx1 : promote_one (completed_ids sts) w = w := by
          simp only [promote_one, if_pos hb, if_neg hall]
        rw [hx1] at hxstat
        have hwb : w.status = SubTaskStatus.Blocked := by simpa using hb
        rcases hxstat with h | h <;> rw [hwb] at h <;> exact absurd h (by simp)
    · have hx1 : promote_one (completed_ids sts) w = w := by
        simp only [promote_one, if_neg hb]
      rw [hx1] at hxstat hdep
      exact dep_completed_update_blocked sts dep (hinv w hw hxstat dep hdep)
  | start sid st hfind hst =>
    intro x hx hxstat dep hdep
    have hyne : ¬ st.status = SubTaskStatus.Completed := by rw [hst]; simp
    rcases mem_modifyFirst _ _ _ _ hx with hxin | ⟨y, hy, rfl⟩
    · exact dep_completed_modifyFirst _ _ _ st dep hyne hfind
        (hinv x hxin hxstat dep hdep)
    · have hyst : y = st := by
        rw [find_subtask] at hfind
        rw [hfind] at hy
        exact (Option.some_inj.mp hy).symm
      subst hyst
      have hymem : y ∈ sts := List.mem_of_find?_eq_some hy
      exact dep_completed_modifyFirst _ _ _ y dep hyne hy
        (hinv y hymem (Or.inl hst) dep hdep)
  | complete sid st hfind hst =>
    intro x hx hxstat dep hdep
    have hyne : ¬ st.status = SubTaskStatus.Completed := by rw [hst]; simp
    rcases mem_modifyFirst _ _ _ _ hx with hxin | ⟨y, hy, rfl⟩
    · exact dep_completed_modifyFirst _ _ _ st dep hyne hfind
        (hinv x hxin hxstat dep hdep)
    · rcases hxstat with h | h <;> exact absurd h (by simp)
  | fail sid tid err st hfind hst =>
    intro x hx hxstat dep hdep
    have hyne : ¬ st.status = SubTaskStatus.Completed := by rw [hst]; simp
    simp only [handle_subtask_error, hfind] at hx ⊢
    by_cases hr :
        (decide (st.retry_count < st.max_retries) && DEFAULT_AUTO_RETRY) = true
    · simp only [hr, if_true] at hx ⊢
      rcases mem_modifyFirst _ _ _ _ hx with hxin | ⟨y, hy, rfl⟩
      · exact dep_completed_modifyFirst _ _ _ st dep hyne hfind
          (hinv x hxin hxstat dep hdep)
      · have hyst : y = st := by
          rw [find_subtask] at hfind
          rw [hfind] at hy
          exact (Option.some_inj.mp hy).symm
        subst hyst
        have hymem : y ∈ sts := List.mem_of_find?_eq_some hy
        exact dep_completed_modifyFirst _ _ _ y dep hyne hy
          (hinv y hymem (Or.inr hst) dep hdep)
    · simp only [Bool.not_eq_true] at hr
      simp only [hr, if_false] at hx ⊢
      rcases mem_modifyFirst _ _ _ _ hx with hxin | ⟨y, hy, rfl⟩
      · exact dep_completed_modifyFirst _ _ _ st dep hyne hfind
          (hinv x hxin hxstat dep hdep)
      · rcases hxstat with h | h <;> exact absurd h (by simp)

/-- C6: in every scheduler state reachable from a freshly planned task, a
Ready (and hence also an Executing) subtask has all of its dependencies
Completed: subtasks are created Ready only with an empty dependency list,
and Blocked subtasks are promoted only once every dependency id is among
the Completed subtasks. -/
theorem swarm_ready_invariant_reachable (steps : List AnalysisStep)
    (s : List SubTask) (h : SwarmReachable (create_execution_plan steps) s) :
    ready_invariant s := by
  rw [SwarmReachable] at h
  induction h with
  | refl => exact create_plan_invariant steps
  | tail _ hstep ih => exact swarm_step_preserves hstep ih

/-- C6 witness: the invariant holds concretely one promotion step into the
two-subtask chain plan. -/
theorem swarm_ready_invariant_reachable_witness :
    ready_invariant (update_blocked_tasks (create_execution_plan
      [⟨"observe state", []⟩, ⟨"execute main task", ["step_0"]⟩])) :=
  swarm_ready_invariant_reachable _ _
    (Relation.ReflTransGen.single (SwarmStep.promote _))

/-- One failure of a still-retryable singleton subtask: Recovery event,
re-queued Ready, retry count incremented. -/
theorem handle_error_singleton_retry (tid sid err d : String) (j M : Nat)
    (h : j < M) :
    handle_subtask_error tid [⟨sid, d, [], SubTaskStatus.Ready, j, M⟩] sid err
      = ([⟨sid, d, [], SubTaskStatus.Ready, j + 1, M⟩],
         SwarmEvent.RecoveryAttempt tid sid "Retry with modified approach") := by
  simp [handle_subtask_error, find_subtask, List.find?, modifyFirst,
    DEFAULT_AUTO_RETRY, h]

/-- One failure of a retry-exhausted singleton subtask: failure event,
marked Failed. -/
theorem handle_error_singleton_fail (tid sid err d : String) (j M : Nat)
    (h : ¬ j < M) :
    handle_subtask_error tid [⟨sid, d, [], SubTaskStatus.Ready, j, M⟩] sid err
      = ([⟨sid, d, [], SubTaskStatus.Failed, j, M⟩],
         SwarmEvent.SubTaskFailed tid sid err) := by
  simp [handle_subtask_error, find_subtask, List.find?, modifyFirst,
    DEFAULT_AUTO_RETRY, h]

/-- While the retry budget lasts, iterated failures keep the subtask Ready
and count up the retries, emitting one Recovery event per failure. -/
theorem fail_repeatedly_ready (tid sid err d : String) (M K : Nat) :
    ∀ j, j + K ≤ M →
      fail_repeatedly tid sid err K [⟨sid, d, [], SubTaskStatus.Ready, j, M⟩]
        = [⟨sid, d, [], SubTaskStatus.Ready, j + K, M⟩] ∧
      fail_events tid sid err K [⟨sid, d, [], SubTaskStatus.Ready, j, M⟩]
        = List.replicate K
            (SwarmEvent.RecoveryAttempt tid sid "Retry with modified approach") := by
  induction K with
  | zero => intro j _; simp [fail_repeatedly, fail_events]
  | succ k ih =>
    intro j hj
    have hlt : j < M := by omega
    have hstep := handle_error_singleton_retry tid sid err d j M hlt
    have h1 : (handle_subtask_error tid
        [⟨sid, d, [], SubTaskStatus.Ready, j, M⟩] sid err).1
          = [⟨sid, d, [], SubTaskStatus.Ready, j + 1, M⟩] := by rw [hstep]
    have h2 : (handle_subtask_error tid
        [⟨sid, d, [], SubTaskStatus.Ready, j, M⟩] sid err).2
          = SwarmEvent.RecoveryAttempt tid sid "Retry with modified approach" := by
      rw [hstep]
    have hrec := ih (j + 1) (by omega)
    constructor
    · simp only [fail_repeatedly, h1]
      rw [hrec.1]
      have : j + 1 + k = j + (k + 1) := by omega
      rw [this]
    · simp only [fail_events, h1, h2]
      rw [hrec.2]
      rfl

/-- Splitting an iterated failure run. -/
theorem fail_repeatedly_add (tid sid err : String) (a b : Nat)
    (sts : List SubTask) :
    fail_repeatedly tid sid err (a + b) sts
      = fail_repeatedly tid sid err b (fail_repeatedly tid sid err a sts) := by
  induction a generalizing sts with
  | zero => simp [fail_repeatedly]
  | succ k ih =>
    have h : k + 1 + b = (k + b) + 1 := by omega
    rw [h]
    simp only [fail_repeatedly]
    exact ih _

/-- Splitting the event trace of an iterated failure run. -/
theorem fail_events_add (tid sid err : String) (a b : Nat)
    (sts : List SubTask) :
    fail_events tid sid err (a + b) sts
      = fail_events tid sid err a sts ++
          fail_events tid sid err b (fail_repeatedly tid sid err a sts) := by
  induction a generalizing sts with
  | zero => simp [fail_events, fail_repeatedly]
  | succ k ih =>
    have h : k + 1 + b = (k + b) + 1 := by omega
    rw [h]
    simp only [fail_events, fail_repeatedly]
    rw [ih]
    simp

/-- `handle_subtask_error` keeps every retry count within its budget:
the count is incremented only under the `retry_count < max_retries`
guard. -/
theorem handle_error_retry_bound (tid sid err : String) (sts : List SubTask)
    (h : ∀ st ∈ sts, st.retry_count ≤ st.max_retries) :
    ∀ st ∈ (handle_subtask_error tid sts sid err).1,
      st.retry_count ≤ st.max_retries := by
  intro x hx
  cases hfind : find_subtask sts sid with
  | none =>
    simp only [handle_subtask_error, hfind, if_false, Bool.false_eq_true] at hx
    rcases mem_modifyFirst _ _ _ _ hx with hxin | ⟨y, hy, rfl⟩
    · exact h x hxin
    · exact h y (List.mem_of_find?_eq_some hy)
  | some st =>
    by_cases hrc : st.retry_count < st.max_retries
    · simp only [handle_subtask_error, hfind, DEFAULT_AUTO_RETRY,
        decide_eq_true hrc, Bool.and_self, if_true] at hx
      rcases mem_modifyFirst _ _ _ _ hx with hxin | ⟨y, hy, rfl⟩
      · exact h x hxin
      · have hyst : y = st := by
          rw [find_subtask] at hfind
          rw [hfind] at hy
          exact (Option.some_inj.mp hy).symm
        subst hyst
        show y.retry_count + 1 ≤ y.max_retries
        omega
    · simp only [handle_subtask_error, hfind, DEFAULT_AUTO_RETRY,
        decide_eq_false hrc, Bool.false_and, if_false, Bool.false_eq_true] at hx
      rcases mem_modifyFirst _ _ _ _ hx with hxin | ⟨y, hy, rfl⟩
      · exact h x hxin
      · exact h y (List.mem_of_find?_eq_some hy)

/-- Iterated failure handling keeps every retry count within its budget. -/
theorem fail_repeatedly_retry_bound (tid sid err : String) (K : Nat)
    (sts : List SubTask) (h : ∀ st ∈ sts, st.retry_count ≤ st.max_retries) :
    ∀ st ∈ fail_repeatedly tid sid err K sts,
      st.retry_count ≤ st.max_retries := by
  induction K generalizing sts with
  | zero => simpa [fail_repeatedly] using h
  | succ k ih =>
    simp only [fail_repeatedly]
    exact ih _ (handle_error_retry_bound tid sid err sts h)

/-- C7 counterexample: with the default budget of 3 retries, a subtask
that fails exactly max_retries = 3 times is re-queued Ready with
retry_count 3 - it is not marked Failed (that happens on the fourth
failure). -/
theorem subtask_not_failed_after_max_retries_failures :
    (fail_repeatedly "t" "s1" "boom" DEFAULT_MAX_RETRIES
        [c7_subtask "s1" "d" DEFAULT_MAX_RETRIES]).map
        (fun st => (st.status, st.retry_count))
      = [(SubTaskStatus.Ready, 3)] ∧
    DEFAULT_MAX_RETRIES = 3 ∧
    SubTaskStatus.Ready ≠ SubTaskStatus.Failed := by
  refine ⟨?_, rfl, by simp⟩
  have h := (fail_repeatedly_ready "t" "s1" "boom" "d" 3 3 0 (by omega)).1
  simp only [DEFAULT_MAX_RETRIES, c7_subtask]
  rw [h]
  rfl

/-- C7 amended: each failure with `retry_count < max_retries` emits a
Recovery event and re-queues the subtask Ready with the count
incremented; a subtask that fails K times with K at most max_retries is
retried K times (still Ready), it is marked Failed (with the failure
event) on the (max_retries + 1)-th failure, and retry_count never
exceeds max_retries. -/
theorem subtask_retry_bound (tid sid err d : String) (M K : Nat) :
    (K ≤ M →
      fail_repeatedly tid sid err K [c7_subtask sid d M]
          = [⟨sid, d, [], SubTaskStatus.Ready, K, M⟩] ∧
      fail_events tid sid err K [c7_subtask sid d M]
          = List.replicate K
              (SwarmEvent.RecoveryAttempt tid sid "Retry with modified approach")) ∧
    (fail_repeatedly tid sid err (M + 1) [c7_subtask sid d M]
        = [⟨sid, d, [], SubTaskStatus.Failed, M, M⟩] ∧
     fail_events tid sid err (M + 1) [c7_subtask sid d M]
        = List.replicate M
            (SwarmEvent.RecoveryAttempt tid sid "Retry with modified approach")
          ++ [SwarmEvent.SubTaskFailed tid sid err]) ∧
    (∀ st ∈ fail_repeatedly tid sid err K [c7_subtask sid d M],
      st.retry_count ≤ st.max_retries) := by
  have hM := fail_repeatedly_ready tid sid err d M M 0 (by omega)
  have hM1 : fail_repeatedly tid sid err M [c7_subtask sid d M]
      = [⟨sid, d, [], SubTaskStatus.Ready, M, M⟩] := by
    have := hM.1
    rw [Nat.zero_add] at this
    simpa [c7_subtask] using this
  refine ⟨?_, ⟨?_, ?_⟩, ?_⟩
  · intro hK
    have h := fail_repeatedly_ready tid sid err d M K 0 (by omega)
    constructor
    · have := h.1
      rw [Nat.zero_add] at this
      simpa [c7_subtask] using this
    · simpa [c7_subtask] using h.2
  · rw [fail_repeatedly_add tid sid err M 1, hM1]
    simp only [fail_repeatedly]
    rw [congrArg Prod.fst
      (handle_error_singleton_fail tid sid err d M M (by omega))]
  · rw [fail_events_add tid sid err M 1, hM1]
    have he : fail_events tid sid err M [c7_subtask sid d M]
        = List.replicate M
            (SwarmEvent.RecoveryAttempt tid sid "Retry with modified approach") := by
      simpa [c7_subtask] using hM.2
    rw [he]
    simp only [fail_events]
    rw [congrArg Prod.snd
      (handle_error_singleton_fail tid sid err d M M (by omega))]
  · exact fail_repeatedly_retry_bound tid sid err K _
      (by intro st hst; simp only [c7_subtask, List.mem_singleton] at hst
          subst hst; exact Nat.zero_le M)

/-- C7 witness: the amended claim evaluated at the default budget, after
two failures and after four failures. -/
theorem subtask_retry_bound_witness :
    fail_repeatedly "t" "s1" "boom" 2 [c7_subtask "s1" "d" 3]
        = [⟨"s1", "d", [], SubTaskStatus.Ready, 2, 3⟩] ∧
    fail_repeatedly "t" "s1" "boom" 4 [c7_subtask "s1" "d" 3]
        = [⟨"s1", "d", [], SubTaskStatus.Failed, 3, 3⟩] :=
  ⟨((subtask_retry_bound "t" "s1" "boom" "d" 3 2).1 (by decide)).1,
   (subtask_retry_bound "t" "s1" "boom" "d" 3 2).2.1.1⟩

/-- Planning-phase events are never `TaskCompleted`. -/
theorem filter_tc_plan (l : List PlanPhaseEvent) :
    (l.map planEventToSwarm).filter is_task_completed_event = [] := by
  induction l with
  | nil => rfl
  | cons a t ih =>
    cases a
    simp [planEventToSwarm, is_task_completed_event, List.filter, ih]

/-- Execute-phase events are never `TaskCompleted`. -/
theorem filter_tc_exec (l : List ExecPhaseEvent) :
    (l.map execEventToSwarm).filter is_task_completed_event = [] := by
  induction l with
  | nil => rfl
  | cons a t ih =>
    cases a <;>
      simp [execEventToSwarm, is_task_completed_event, List.filter, ih]

/-- Critic-phase events are never `TaskCompleted`. -/
theorem filter_tc_critic (l : List CriticPhaseEvent) :
    (l.map criticEventToSwarm).filter is_task_completed_event = [] := by
  induction l with
  | nil => rfl
  | cons a t ih =>
    cases a
    simp [criticEventToSwarm, is_task_completed_event, List.filter, ih]

/-- C10: `process_task` emits exactly one `TaskCompleted` event and its
success field is true whatever the phases did and whatever the subtasks
ended as; only the stored task status - Completed exactly when every
subtask is Completed, Failed otherwise - reflects the real outcome. -/
theorem process_task_completed_event_always_success
    (plan : List PlanPhaseEvent) (exec : List ExecPhaseEvent)
    (critic : List CriticPhaseEvent) (task_id : String)
    (subtasks : List SubTask) :
    (process_task_events plan exec critic task_id).filter
        is_task_completed_event
      = [SwarmEvent.TaskCompleted task_id true] ∧
    (finalize_task_status subtasks = TaskStatus.Completed ↔
      ∀ st ∈ subtasks, st.status = SubTaskStatus.Completed) ∧
    (finalize_task_status subtasks = TaskStatus.Failed ↔
      ¬ ∀ st ∈ subtasks, st.status = SubTaskStatus.Completed) := by
  refine ⟨?_, ?_, ?_⟩
  · simp [process_task_events, List.filter_append, filter_tc_plan,
      filter_tc_exec, filter_tc_critic, List.filter, is_task_completed_event]
  · by_cases h : (subtasks.all fun st => st.status == SubTaskStatus.Completed) = true
    · have hall := List.all_eq_true.mp h
      simp only [finalize_task_status, if_pos h]
      constructor
      · intro _ st hst
        simpa using hall st hst
      · intro _
        trivial
    · simp only [finalize_task_status, if_neg h]
      constructor
      · intro hc
        exact absurd hc (by simp)
      · intro hc
        exfalso
        exact h (List.all_eq_true.mpr fun st hst => by simpa using hc st hst)
  · by_cases h : (subtasks.all fun st => st.status == SubTaskStatus.Completed) = true
    · have hall := List.all_eq_true.mp h
      simp only [finalize_task_status, if_pos h]
      constructor
      · intro hc
        exact absurd hc (by simp)
      · intro hc
        exact absurd (fun st hst => by simpa using hall st hst) hc
    · simp only [finalize_task_status, if_neg h]
      constructor
      · intro _ hc
        exact h (List.all_eq_true.mpr fun st hst => by simpa using hc st hst)
      · intro _
        trivial

/-- Every actuator dispatch of one block is guarded by a flag read that
returned true. -/
theorem dispatch_tool_use_guarded (env : ToolEnv) (mode : AgentMode)
    (running : Nat → Bool) (k : Nat) (id name : String) (input : Json)
    (hk : running k = true) :
    ∀ p ∈ (dispatch_tool_use env mode running k id name input).dispatched,
      running p.1 = true := by
  intro p hp
  simp only [dispatch_tool_use] at hp
  repeat' split at hp
  all_goals simp_all

/-- Every actuator dispatch of the block loop is guarded by a flag read
that returned true. -/
theorem process_blocks_dispatch_guarded (env : ToolEnv) (mode : AgentMode)
    (running : Nat → Bool) (blocks : List ContentBlock) (k : Nat) :
    ∀ p ∈ (process_blocks env mode running blocks k).dispatched,
      running p.1 = true := by
  induction blocks generalizing k with
  | nil => intro p hp; simp [process_blocks] at hp
  | cons b rest ih =>
    intro p hp
    by_cases hrun : running k = false
    · simp [process_blocks, hrun] at hp
    · have hktrue : running k = true := by
        cases h : running k
        · exact absurd h hrun
        · rfl
      simp only [process_blocks, hrun, if_neg, if_false] at hp
      rw [if_neg (by simp [hktrue])] at hp
      cases b with
      | toolUse id name input =>
        simp only at hp
        split at hp
        · exact dispatch_tool_use_guarded env mode running k id name input
            hktrue p hp
        · split at hp
          · exact dispatch_tool_use_guarded env mode running k id name input
              hktrue p hp
          · simp only [List.mem_append] at hp
            rcases hp with hp | hp
            · exact dispatch_tool_use_guarded env mode running k id name input
                hktrue p hp
            · exact ih _ p hp
      | text t => exact ih _ p hp
      | thinking t => exact ih _ p hp
      | redactedThinking d2 => exact ih _ p hp
      | serverToolUse a b c => exact ih _ p hp
      | toolResult a b => exact ih _ p hp
      | image a b => exact ih _ p hp
      | webSearchToolResult => exact ih _ p hp
      | webFetchToolResult => exact ih _ p hp

/-- The dispatch record of a turn is that of its block loop. -/
theorem process_turn_dispatched (env : ToolEnv) (mode : AgentMode)
    (running : Nat → Bool) (blocks : List ContentBlock)
    (msgs : List Message) :
    (process_assistant_turn env mode running blocks msgs).dispatched
      = (process_blocks env mode running blocks 0).dispatched := by
  simp only [process_assistant_turn]
  split
  · rfl
  · split_ifs <;> rfl

/-- A turn that observes the cleared flag terminates without appending
any tool-result message. -/
theorem process_turn_stopped_appends_nothing (env : ToolEnv)
    (mode : AgentMode) (running : Nat → Bool)
    (blocks : List ContentBlock) (msgs : List Message) :
    (process_assistant_turn env mode running blocks msgs).endState
        = TurnEnd.stopped →
    (process_assistant_turn env mode running blocks msgs).messages
      = msgs ++ [⟨"assistant", blocks⟩] := by
  simp only [process_assistant_turn]
  split
  · intro h
    simp at h
  · split_ifs <;> intro h <;> first | rfl | simp at h

/-- C1 (code bug evaluation): an assistant turn holding exactly one
ToolUse named computer whose input fails to parse (the empty object lacks
the required action field) produces an appended user message with zero
ToolResult blocks - the source emits an error event and skips the block,
so the every-ToolUse-has-a-ToolResult contract is broken and the
empty-results fallback pushes a plain text message instead. -/
theorem agent_turn_parse_failure_drops_tool_result :
    (process_assistant_turn env_c1 AgentMode.Computer (fun _ => true)
        [ContentBlock.toolUse "toolu_1" "computer" (Json.jobj [])] []).endState
      = TurnEnd.continued ∧
    ((process_assistant_turn env_c1 AgentMode.Computer (fun _ => true)
        [ContentBlock.toolUse "toolu_1" "computer" (Json.jobj [])] []).messages.map
        fun m => (m.role, count_tool_results m))
      = [("assistant", 0), ("user", 0)] ∧
    count_tool_uses [ContentBlock.toolUse "toolu_1" "computer" (Json.jobj [])]
      = 1 ∧
    ((process_assistant_turn env_c1 AgentMode.Computer (fun _ => true)
        [ContentBlock.toolUse "toolu_1" "computer" (Json.jobj [])] []).messages.getLast?.map
        fun m => m.content)
      = some [ContentBlock.text silent_failure_text] :=
  ⟨rfl, rfl, rfl, rfl⟩

/-- C2 counterexample: a turn with one browser ToolUse cancelled by the
running flag terminates as stopped with only the assistant message
appended - the outstanding ToolUse receives no ToolResult at all, not a
synthetic stopped one. -/
theorem cancelled_tool_use_gets_no_tool_result :
    (process_assistant_turn env_c2 AgentMode.Browser running_c2
        [ContentBlock.toolUse "toolu_9" "page_action" (Json.jobj [])] []).endState
      = TurnEnd.stopped ∧
    ((process_assistant_turn env_c2 AgentMode.Browser running_c2
        [ContentBlock.toolUse "toolu_9" "page_action" (Json.jobj [])] []).messages.map
        fun m => (m.role, count_tool_results m))
      = [("assistant", 0)] ∧
    count_tool_uses [ContentBlock.toolUse "toolu_9" "page_action" (Json.jobj [])]
      = 1 :=
  ⟨rfl, rfl, rfl⟩

/-- C2 amended: every actuator dispatch of a turn happens under a
running-flag read that returned true (so once the flag is cleared no
further dispatch occurs), and a turn that ends stopped appends nothing
beyond the assistant message - the collected tool results are discarded
and no ToolUse of the cancelled turn receives any ToolResult, synthetic
or otherwise. -/
theorem cancellation_discards_tool_results (env : ToolEnv) (mode : AgentMode)
    (running : Nat → Bool) (blocks : List ContentBlock)
    (msgs : List Message) :
    (∀ p ∈ (process_assistant_turn env mode running blocks msgs).dispatched,
        running p.1 = true) ∧
    ((process_assistant_turn env mode running blocks msgs).endState
        = TurnEnd.stopped →
      (process_assistant_turn env mode running blocks msgs).messages
        = msgs ++ [⟨"assistant", blocks⟩]) := by
  constructor
  · intro p hp
    rw [process_turn_dispatched] at hp
    exact process_blocks_dispatch_guarded env mode running blocks 0 p hp
  · exact process_turn_stopped_appends_nothing env mode running blocks msgs

/-- C2 witness: the amended claim evaluated on the concrete cancelled
browser turn - the single dispatch was guarded by the second flag read
(which returned true) and the stopped turn appended only the assistant
message. -/
theorem cancellation_discards_tool_results_witness :
    running_c2 1 = true ∧
    (process_assistant_turn env_c2 AgentMode.Browser running_c2
        [ContentBlock.toolUse "toolu_9" "page_action" (Json.jobj [])] []).messages
      = [] ++ [⟨"assistant",
          [ContentBlock.toolUse "toolu_9" "page_action" (Json.jobj [])]⟩] :=
  ⟨(cancellation_discards_tool_results env_c2 AgentMode.Browser running_c2
      [ContentBlock.toolUse "toolu_9" "page_action" (Json.jobj [])] []).1
      (1, "page_action") (by simp [process_assistant_turn, process_blocks,
        dispatch_tool_use, running_c2, is_browser_tool, BROWSER_TOOLS, env_c2, env_c1]),
   (cancellation_discards_tool_results env_c2 AgentMode.Browser running_c2
      [ContentBlock.toolUse "toolu_9" "page_action" (Json.jobj [])] []).2 rfl⟩

/-- A uid whose parsed snapshot part differs from the current snapshot id
resolves to the stale-uid error. -/
theorem get_backend_stale (st : BrowserClientState) (uid : String)
    (snap : Nat) (hparse : uid_snapshot_part uid = some snap)
    (hne : snap ≠ st.snapshot_id) :
    get_backend_node_id st uid
      = Except.error (stale_uid_error snap st.snapshot_id) := by
  rw [uid_snapshot_part] at hparse
  rw [get_backend_node_id]
  cases hsplit : (splitOnChar '_' uid.data).map String.mk with
  | nil =>
    rw [hsplit] at hparse
    exact absurd (show (none : Option Nat) = some snap from hparse) (by simp)
  | cons p0 rest =>
    cases rest with
    | nil =>
      rw [hsplit] at hparse
      exact absurd (show (none : Option Nat) = some snap from hparse) (by simp)
    | cons p1 rest2 =>
      cases rest2 with
      | nil =>
        rw [hsplit] at hparse
        have hp : parseU64 p0 = some snap := hparse
        show (match parseU64 p0 with
          | none => Except.error "invalid snapshot id in uid"
          | some snap2 =>
            if snap2 ≠ st.snapshot_id then
              Except.error (stale_uid_error snap2 st.snapshot_id)
            else
              match lookupNode st.uid_to_backend_node uid with
              | some nid => Except.ok nid
              | none => Except.error ("uid not found: " ++ uid))
          = Except.error (stale_uid_error snap st.snapshot_id)
        rw [hp]
        exact if_pos hne
      | cons p2 rest3 =>
        rw [hsplit] at hparse
        exact absurd (show (none : Option Nat) = some snap from hparse) (by simp)

/-- A uid that resolves successfully carries the current snapshot id. -/
theorem get_backend_ok_current (st : BrowserClientState) (uid : String)
    (nid : Nat) (h : get_backend_node_id st uid = Except.ok nid) :
    uid_snapshot_part uid = some st.snapshot_id := by
  rw [get_backend_node_id] at h
  rw [uid_snapshot_part]
  cases hsplit : (splitOnChar '_' uid.data).map String.mk with
  | nil =>
    rw [hsplit] at h
    exact absurd (show Except.error ("invalid uid format: " ++ uid)
      = Except.ok nid from h) (by simp)
  | cons p0 rest =>
    cases rest with
    | nil =>
      rw [hsplit] at h
      exact absurd (show Except.error ("invalid uid format: " ++ uid)
        = Except.ok nid from h) (by simp)
    | cons p1 rest2 =>
      cases rest2 with
      | nil =>
        rw [hsplit] at h
        show parseU64 p0 = some st.snapshot_id
        have h2 : (match parseU64 p0 with
          | none => Except.error "invalid snapshot id in uid"
          | some snap2 =>
            if snap2 ≠ st.snapshot_id then
              Except.error (stale_uid_error snap2 st.snapshot_id)
            else
              match lookupNode st.uid_to_backend_node uid with
              | some nid2 => Except.ok nid2
              | none => Except.error ("uid not found: " ++ uid))
            = Except.ok nid := h
        cases hp : parseU64 p0 with
        | none =>
          rw [hp] at h2
          exact absurd h2 (by simp)
        | some snap =>
          rw [hp] at h2
          have h3 : (if snap ≠ st.snapshot_id then
              Except.error (stale_uid_error snap st.snapshot_id)
            else
              match lookupNode st.uid_to_backend_node uid with
              | some nid2 => Except.ok nid2
              | none => Except.error ("uid not found: " ++ uid))
              = Except.ok nid := h2
          by_cases hsn : snap ≠ st.snapshot_id
          · rw [if_pos hsn] at h3
            exact absurd h3 (by simp)
          · push_neg at hsn
            rw [hsn]
      | cons p2 rest3 =>
        rw [hsplit] at h
        exact absurd (show Except.error ("invalid uid format: " ++ uid)
          = Except.ok nid from h) (by simp)

/-- C8: every element operation given a UID whose snapshot prefix differs
from the current snapshot id returns the stale-uid error - which tells
the caller to take a new snapshot - before issuing any page interaction;
a resolvable UID always carries the current snapshot id; and
`take_snapshot` increments the snapshot id (rebuilding the map with the
new prefix), so every previously resolvable UID is rejected as stale
afterwards. -/
theorem stale_uid_rejected_without_page_interaction (env : BrowserEnv)
    (st : BrowserClientState) (uid uid2 value file_path : String)
    (dbl : Bool) (snap : Nat)
    (hparse : uid_snapshot_part uid = some snap)
    (hne : snap ≠ st.snapshot_id) :
    (click env st uid dbl
        = ([], Except.error (stale_uid_error snap st.snapshot_id)) ∧
     hover env st uid
        = ([], Except.error (stale_uid_error snap st.snapshot_id)) ∧
     fill env st uid value
        = ([], Except.error (stale_uid_error snap st.snapshot_id)) ∧
     drag env st uid uid2
        = ([], Except.error (stale_uid_error snap st.snapshot_id)) ∧
     upload_file env st uid file_path
        = ([], Except.error (stale_uid_error snap st.snapshot_id))) ∧
    (((drag env st uid2 uid).1.all fun c => !is_interaction_cmd c) = true ∧
      ∃ e, (drag env st uid2 uid).2 = Except.error e) ∧
    (∀ nid, get_backend_node_id st uid2 = Except.ok nid →
      uid_snapshot_part uid2 = some st.snapshot_id) ∧
    (∀ entries : List (Nat × Nat),
      (take_snapshot st entries).snapshot_id = st.snapshot_id + 1 ∧
      (∀ nid, get_backend_node_id st uid2 = Except.ok nid →
        get_backend_node_id (take_snapshot st entries) uid2
          = Except.error
              (stale_uid_error st.snapshot_id (st.snapshot_id + 1)))) := by
  have hstale := get_backend_stale st uid snap hparse hne
  refine ⟨⟨?_, ?_, ?_, ?_, ?_⟩, ⟨?_, ?_⟩, ?_, ?_⟩
  · rw [click, resolve_uid_to_point, hstale]
  · rw [hover, resolve_uid_to_point, hstale]
  · rw [fill, click, resolve_uid_to_point, hstale]
  · rw [drag, resolve_uid_to_point, hstale]
  · rw [upload_file, hstale]
  · rw [drag]
    cases hfrom : get_backend_node_id st uid2 with
    | error e =>
      rw [show resolve_uid_to_point env st uid2 = ([], Except.error e) from by
        rw [resolve_uid_to_point, hfrom]]
      simp
    | ok nid =>
      have hres2 : resolve_uid_to_point env st uid2
          = ([PageCmd.getBoxModel nid], env.box_center nid) := by
        rw [resolve_uid_to_point, hfrom]
      cases hbox : env.box_center nid with
      | error e =>
        rw [hres2, hbox]
        simp [is_interaction_cmd]
      | ok pt =>
        obtain ⟨px, py⟩ := pt
        rw [hres2, hbox, show resolve_uid_to_point env st uid = ([],
          Except.error (stale_uid_error snap st.snapshot_id)) from by
            rw [resolve_uid_to_point, hstale]]
        simp [is_interaction_cmd]
  · rw [drag]
    cases hfrom : get_backend_node_id st uid2 with
    | error e =>
      rw [show resolve_uid_to_point env st uid2 = ([], Except.error e) from by
        rw [resolve_uid_to_point, hfrom]]
      exact ⟨e, rfl⟩
    | ok nid =>
      have hres2 : resolve_uid_to_point env st uid2
          = ([PageCmd.getBoxModel nid], env.box_center nid) := by
        rw [resolve_uid_to_point, hfrom]
      cases hbox : env.box_center nid with
      | error e =>
        rw [hres2, hbox]
        exact ⟨e, rfl⟩
      | ok pt =>
        obtain ⟨px, py⟩ := pt
        rw [hres2, hbox, show resolve_uid_to_point env st uid = ([],
          Except.error (stale_uid_error snap st.snapshot_id)) from by
            rw [resolve_uid_to_point, hstale]]
        exact ⟨stale_uid_error snap st.snapshot_id, rfl⟩
  · intro nid h
    exact get_backend_ok_current st uid2 nid h
  · intro entries
    refine ⟨rfl, ?_⟩
    intro nid h
    have hcur := get_backend_ok_current st uid2 nid h
    exact get_backend_stale (take_snapshot st entries) uid2 st.snapshot_id
      hcur (by simp [take_snapshot])

/-- C8 witness: the uid of snapshot 1 is rejected by the client sitting
at snapshot 2, a mapped uid of snapshot 2 resolves, and after a new
snapshot it is stale. -/
theorem stale_uid_rejected_witness :
    click browser_env_w browser_state_w "1_0" false
      = ([], Except.error (stale_uid_error 1 2)) ∧
    upload_file browser_env_w browser_state_w "1_0" "file.txt"
      = ([], Except.error (stale_uid_error 1 2)) ∧
    get_backend_node_id browser_state_w "2_0" = Except.ok 7 ∧
    (take_snapshot browser_state_w [(0, 9)]).snapshot_id = 3 ∧
    get_backend_node_id (take_snapshot browser_state_w [(0, 9)]) "2_0"
      = Except.error (stale_uid_error 2 3) :=
  ⟨(stale_uid_rejected_without_page_interaction browser_env_w browser_state_w
      "1_0" "2_0" "v" "file.txt" false 1 (by decide) (by decide)).1.1,
   (stale_uid_rejected_without_page_interaction browser_env_w browser_state_w
      "1_0" "2_0" "v" "file.txt" false 1 (by decide) (by decide)).1.2.2.2.2,
   rfl,
   ((stale_uid_rejected_without_page_interaction browser_env_w browser_state_w
      "1_0" "2_0" "v" "file.txt" false 1 (by decide) (by decide)).2.2.2 [(0, 9)]).1,
   ((stale_uid_rejected_without_page_interaction browser_env_w browser_state_w
      "1_0" "2_0" "v" "file.txt" false 1 (by decide) (by decide)).2.2.2 [(0, 9)]).2 7
      rfl⟩

end HeyWork
